import Mathlib

/-!
# SysPeek: a shallow embedding of `main.go`

The program samples host metrics, formats them and writes them to the
terminal and, when `--log` is given, to a log file.  The embedding keeps the
program's control flow and replaces its effects by a trace of writes:

* a write to standard output, with the colour attribute of the
  `fatih/color` object that made it (`none` for `fmt` and `log` writes);
* a write to the log file;
* a write to standard error (the default usage text of package `flag`).

The operating system and the libraries are inputs: the parsed flags, the
outcome of opening the log file, one `Sample` per refresh cycle, the text
that `%.2f` produces, the banner rows.  The interrupt handler goroutine is
not part of the embedding.
-/

namespace SysPeek

/-! ## Floating point values -/

/-- A `float64`: not-a-number, the two infinities, or a finite value, which
is a rational number. -/
inductive F64
  | nan
  | negInf
  | posInf
  | fin (q : ℚ)
deriving DecidableEq

namespace F64

/-- Go's `x >= c` against a finite constant `c`; false for NaN. -/
def ge (x : F64) (c : ℚ) : Bool :=
  match x with
  | nan => false
  | negInf => false
  | posInf => true
  | fin q => decide (c ≤ q)

end F64

/-- Rounding of an exact result to `float64`, on the range of the finite
doubles: it is monotone and leaves alone every value `m / 2 ^ e` whose
numerator fits the 53 bit significand. -/
structure Rounding where
  rnd : ℚ → ℚ
  mono : ∀ a b : ℚ, a ≤ b → rnd a ≤ rnd b
  exact : ∀ (m : ℤ) (e : ℕ), |m| ≤ 2 ^ 53 → e ≤ 1074 →
    rnd ((m : ℚ) / 2 ^ e) = (m : ℚ) / 2 ^ e

/-- Arithmetic without rounding error. -/
def Rounding.exactArith : Rounding where
  rnd := id
  mono := fun _ _ h => h
  exact := fun _ _ _ _ => rfl

/-! ## Machine integers -/

/-- Wrap an integer to a signed 64 bit `int` / `int64`. -/
def wrap64 (x : ℤ) : ℤ := (x + 2 ^ 63) % 2 ^ 64 - 2 ^ 63

/-! ## Libraries -/

/-- What the libraries contribute to the text of the output. -/
structure Lib where
  /-- rounding of `float64` arithmetic -/
  round : Rounding
  /-- the text `fmt` produces for verb `%.2f` -/
  fmt2 : F64 → String
  /-- the rows of `figure.NewFigure("SysPeek", "", true)` -/
  bannerRows : List String
  /-- the text of package `flag`'s default `Usage` -/
  defaultUsage : String

/-! ## Output trace -/

/-- The colour attributes the program uses. -/
inductive Colour
  | red
  | yellow
  | green
  | cyan
deriving DecidableEq

/-- One write of the program. -/
inductive Ev
  | term (colour : Option Colour) (text : String)
  | file (text : String)
  | stderr (text : String)
deriving DecidableEq

/-- A write to the terminal: its colour attribute and its text without the
colour escape codes. -/
structure TermWrite where
  colour : Option Colour
  text : String
deriving DecidableEq

/-- The writes that reach the terminal (standard output), in order. -/
def termOf : List Ev → List TermWrite
  | [] => []
  | Ev.term c s :: es => ⟨c, s⟩ :: termOf es
  | _ :: es => termOf es

/-- The writes that reach the log file, in order. -/
def fileOf : List Ev → List String
  | [] => []
  | Ev.file s :: es => s :: fileOf es
  | _ :: es => fileOf es

/-- Package `log` ends every entry with a newline. -/
def ensureNewline (s : String) : String :=
  if s.data.getLast? = some '\n' then s else s ++ "\n"

/-- The standard logger: standard output, and the log file too when one is
open (`io.MultiWriter(os.Stdout, logFile)`). -/
def logOutput (logging : Bool) (s : String) : List Ev :=
  if logging then [Ev.term none (ensureNewline s), Ev.file (ensureNewline s)]
  else [Ev.term none (ensureNewline s)]

/-- `log.Println(s)`. -/
def logPrintln (logging : Bool) (s : String) : List Ev :=
  logOutput logging (s ++ "\n")

/-- `logFileOnly`: the log file when one is open, `io.Discard` otherwise. -/
def logFileOnlyOutput (logging : Bool) (s : String) : List Ev :=
  if logging then [Ev.file (ensureNewline s)] else []

/-- `logFileOnly.Println(s)`. -/
def logFileOnlyPrintln (logging : Bool) (s : String) : List Ev :=
  logFileOnlyOutput logging (s ++ "\n")

/-- `color.New(c).Print(s)`. -/
def colorPrint (c : Colour) (s : String) : List Ev :=
  [Ev.term (some c) s]

/-- `color.New(c).Println(s)`. -/
def colorPrintln (c : Colour) (s : String) : List Ev :=
  [Ev.term (some c) (s ++ "\n")]

/-- `fmt.Println(s)`. -/
def fmtPrintln (s : String) : List Ev :=
  [Ev.term none (s ++ "\n")]

/-! ## Samples -/

/-- `host.InfoStat`, the fields the program reads. -/
structure InfoStat where
  hostname : String
  platform : String
  platformVersion : String
  kernelArch : String
  kernelVersion : String

/-- `mem.VirtualMemoryStat`, the fields the program reads. -/
structure VirtualMemoryStat where
  usedPercent : F64
  total : Nat

/-- `disk.PartitionStat`, the field the program reads. -/
structure PartitionStat where
  mountpoint : String

/-- `disk.UsageStat`, the fields the program reads. -/
structure UsageStat where
  path : String
  usedPercent : F64
  total : Nat

/-- `net.IOCountersStat`, the fields the program reads. -/
structure IOCountersStat where
  bytesSent : Nat
  bytesRecv : Nat

/-- What the metric providers return during one refresh cycle; an error is
its message.  Each enumerated partition comes with the outcome of
`disk.Usage` on its mount point. -/
structure Sample where
  info : Except String InfoStat
  uptime : Except String Nat
  virtualMemory : Except String VirtualMemoryStat
  cpuPercent : Except String (List F64)
  partitions : Except String (List (PartitionStat × Except String UsageStat))
  counters : Except String (List IOCountersStat)

/-! ## Formatting -/

/-- `time.Duration.Hours`, on a duration in nanoseconds. -/
def Hours (R : Rounding) (d : ℤ) : ℚ :=
  let hour := d.tdiv 3600000000000
  let nsec := d.tmod 3600000000000
  R.rnd (R.rnd hour + R.rnd (R.rnd nsec / 3600000000000))

/-- `time.Duration.Minutes`, on a duration in nanoseconds. -/
def Minutes (R : Rounding) (d : ℤ) : ℚ :=
  let min := d.tdiv 60000000000
  let nsec := d.tmod 60000000000
  R.rnd (R.rnd min + R.rnd (R.rnd nsec / 60000000000))

/-- Go's conversion `int(x)` of a float in the range of `int`: the fraction
is dropped. -/
def toInt (x : ℚ) : ℤ := if 0 ≤ x then ⌊x⌋ else ⌈x⌉

/-- Verb `%d`. -/
def fmtInt (n : ℤ) : String := toString n

/-- Function `formatDuration`: "X days, Y hours, Z minutes" of a duration in
nanoseconds. -/
def formatDuration (R : Rounding) (d : ℤ) : String :=
  let days := (toInt (Hours R d)).tdiv 24
  let hours := (toInt (Hours R d)).tmod 24
  let minutes := (toInt (Minutes R d)).tmod 60
  fmtInt days ++ " days, " ++ fmtInt hours ++ " hours, " ++ fmtInt minutes ++ " minutes"

/-- The `time.Duration` the uptime section builds from `host.Uptime()`:
`time.Duration(uptimeSeconds) * time.Second`, in 64 bit arithmetic. -/
def uptimeDuration (uptimeSeconds : Nat) : ℤ :=
  wrap64 (wrap64 uptimeSeconds * 1000000000)

/-- Function `bytesToGB`: `float64(b) / (1024 * 1024 * 1024)`. -/
def bytesToGB (R : Rounding) (b : Nat) : F64 :=
  F64.fin (R.rnd (R.rnd b / (1024 * 1024 * 1024)))

/-- Function `bytesToMB`: `float64(b) / (1024 * 1024)`. -/
def bytesToMB (R : Rounding) (b : Nat) : F64 :=
  F64.fin (R.rnd (R.rnd b / (1024 * 1024)))

/-- Function `printMemoryUsage`: the line in its colour band on the terminal,
the same text through `logFileOnly`. -/
def printMemoryUsage (L : Lib) (logging : Bool) (usedPercent : F64) (totalBytes : Nat) :
    List Ev :=
  let colour :=
    if usedPercent.ge 85 then Colour.red
    else if usedPercent.ge 60 then Colour.yellow
    else Colour.green
  let output := "💾 Memory: " ++ L.fmt2 usedPercent ++ "% used of " ++
    L.fmt2 (bytesToGB L.round totalBytes) ++ " GB\n"
  colorPrint colour output ++ logFileOnlyOutput logging output

/-- Function `printCPUUsage`: the line in its colour band on the terminal, the
same text through `logFileOnly`. -/
def printCPUUsage (L : Lib) (logging : Bool) (usedPercent : F64) : List Ev :=
  let colour :=
    if usedPercent.ge 85 then Colour.red
    else if usedPercent.ge 60 then Colour.yellow
    else Colour.green
  let output := "⚙️  CPU Usage: " ++ L.fmt2 usedPercent ++ "%\n"
  colorPrint colour output ++ logFileOnlyOutput logging output

/-- The loop of `printDiskUsage` over the enumerated partitions. -/
def printDiskUsage.loop (L : Lib) (logging : Bool) :
    List (PartitionStat × Except String UsageStat) → List Ev
  | [] => []
  | (_, Except.error _) :: ps => printDiskUsage.loop L logging ps
  | (_, Except.ok usage) :: ps =>
    let usedPercent := usage.usedPercent
    let colour :=
      if usedPercent.ge 85 then Colour.red
      else if usedPercent.ge 60 then Colour.yellow
      else Colour.green
    let output := "💽 " ++ usage.path ++ " — Used: " ++ L.fmt2 usedPercent ++ "% of " ++
      L.fmt2 (bytesToGB L.round usage.total) ++ " GB\n"
    colorPrint colour output ++ logFileOnlyOutput logging output ++
      printDiskUsage.loop L logging ps

/-- Function `printDiskUsage`, on the outcome of `disk.Partitions(false)`. -/
def printDiskUsage (L : Lib) (logging : Bool)
    (partitions : Except String (List (PartitionStat × Except String UsageStat))) : List Ev :=
  match partitions with
  | Except.error err => logPrintln logging ("💽 Disk Error: " ++ err)
  | Except.ok ps => printDiskUsage.loop L logging ps

/-- Function `printSystemInfo`, on the outcome of `host.Info()`. -/
def printSystemInfo (logging : Bool) (info : Except String InfoStat) : List Ev :=
  match info with
  | Except.error err => logPrintln logging ("🧠 System Info Error: " ++ err)
  | Except.ok info =>
    logOutput logging ("🧠 Hostname: " ++ info.hostname ++ "\n") ++
    logOutput logging ("🧬 OS: " ++ info.platform ++ " " ++ info.platformVersion ++ "\n") ++
    logOutput logging ("🧱 Architecture: " ++ info.kernelArch ++ "\n") ++
    logOutput logging ("🧩 Kernel Version: " ++ info.kernelVersion ++ "\n") ++
    logPrintln logging ""

/-! ## The program -/

/-- The flags after `flag.Parse()`. -/
structure Flags where
  showCPU : Bool
  showMem : Bool
  showNet : Bool
  showAll : Bool
  refresh : ℤ
  showVersion : Bool
  logPath : String
  showDisk : Bool

/-- The flags of an invocation without arguments. -/
def Flags.default : Flags :=
  ⟨false, false, false, false, 0, false, "", false⟩

/-- What the process meets at run time. -/
structure Env where
  /-- the outcome of `os.OpenFile` on the log path: success or the error text -/
  openFile : String → Except String Unit
  /-- the provider results of refresh cycle `i`, counted from 0 -/
  samples : Nat → Sample
  /-- the text of `elapsed.Round(time.Second)` at normal exit -/
  runtime : String

/-- Constant `version`. -/
def version : String := "1.0.0"

/-- The system information block of the loop body (lines 187-192). -/
def systemInfoSection (logging : Bool) (s : Sample) : List Ev :=
  colorPrintln Colour.cyan "=== System Info ===" ++
  logFileOnlyPrintln logging "=== System Info ===" ++
  printSystemInfo logging s.info ++
  logPrintln logging ""

/-- The uptime block of the loop body (lines 194-205). -/
def uptimeSection (L : Lib) (logging : Bool) (s : Sample) : List Ev :=
  colorPrintln Colour.cyan "=== Uptime ===" ++
  logFileOnlyPrintln logging "=== Uptime ===" ++
  (match s.uptime with
   | Except.error err => logPrintln logging ("⏱️  Uptime Error: " ++ err)
   | Except.ok uptimeSeconds =>
     logPrintln logging ("⏱️  Uptime: " ++ formatDuration L.round (uptimeDuration uptimeSeconds))) ++
  logPrintln logging ""

/-- The memory block of the loop body (lines 207-217). -/
def memorySection (L : Lib) (logging : Bool) (s : Sample) : List Ev :=
  colorPrintln Colour.cyan "=== Memory Usage ===" ++
  logFileOnlyPrintln logging "=== Memory Usage ===" ++
  (match s.virtualMemory with
   | Except.error err => logPrintln logging ("💾 Memory Error: " ++ err)
   | Except.ok vmStats => printMemoryUsage L logging vmStats.usedPercent vmStats.total) ++
  logPrintln logging ""

/-- The CPU block of the loop body (lines 219-229); an empty result of
`cpu.Percent` prints nothing. -/
def cpuSection (L : Lib) (logging : Bool) (s : Sample) : List Ev :=
  colorPrintln Colour.cyan "=== CPU Usage ===" ++
  logFileOnlyPrintln logging "=== CPU Usage ===" ++
  (match s.cpuPercent with
   | Except.error err => logPrintln logging ("⚙️  CPU Error: " ++ err)
   | Except.ok (p :: _) => printCPUUsage L logging p
   | Except.ok [] => []) ++
  logPrintln logging ""

/-- The disk block of the loop body (lines 231-236). -/
def diskSection (L : Lib) (logging : Bool) (s : Sample) : List Ev :=
  colorPrintln Colour.cyan "=== Disk Usage ===" ++
  logFileOnlyPrintln logging "=== Disk Usage ===" ++
  printDiskUsage L logging s.partitions ++
  logPrintln logging ""

/-- The network block of the loop body (lines 238-249); an empty result of
`net.IOCounters` prints nothing. -/
def networkSection (L : Lib) (logging : Bool) (s : Sample) : List Ev :=
  colorPrintln Colour.cyan "=== Network I/O ===" ++
  logFileOnlyPrintln logging "=== Network Usage ===" ++
  (match s.counters with
   | Except.error err => logPrintln logging ("🌐 Network Error: " ++ err)
   | Except.ok (c :: _) =>
     logOutput logging ("🌐 Network: Sent " ++ L.fmt2 (bytesToMB L.round c.bytesSent) ++
       " MB | Received " ++ L.fmt2 (bytesToMB L.round c.bytesRecv) ++ " MB\n")
   | Except.ok [] => []) ++
  logPrintln logging ""

/-- True when no category flag and no `--all` is set. -/
def Flags.noneSelected (f : Flags) : Bool :=
  !f.showCPU && !f.showMem && !f.showNet && !f.showDisk && !f.showAll

/-- The start of the loop body: "Show default if nothing is specified". -/
def defaultToAll (f : Flags) : Flags :=
  if f.noneSelected then { f with showAll := true } else f

/-- The start of every pass: clear the screen, banner, subtitle. -/
def cycleHead (L : Lib) (logging : Bool) : List Ev :=
  logOutput logging "\x1b[H\x1b[2J" ++
  L.bannerRows.flatMap fmtPrintln ++
  logPrintln logging "🔧 Your Lightweight System Monitor" ++
  logPrintln logging ""

/-- The sections of one pass, for the flags as they stand after
`defaultToAll`. -/
def cycleSections (L : Lib) (logging : Bool) (f : Flags) (s : Sample) : List Ev :=
  (if f.showAll || f.showCPU || f.showMem || f.showNet || f.showDisk then
    systemInfoSection logging s else []) ++
  (if f.showAll then uptimeSection L logging s else []) ++
  (if f.showAll || f.showMem then memorySection L logging s else []) ++
  (if f.showAll || f.showCPU then cpuSection L logging s else []) ++
  (if f.showAll || f.showDisk then diskSection L logging s else []) ++
  (if f.showAll || f.showNet then networkSection L logging s else [])

/-- The writes of one pass of the refresh loop, up to `refreshCount++`. -/
def cycleBody (L : Lib) (logging : Bool) (f : Flags) (s : Sample) : List Ev :=
  cycleHead L logging ++ cycleSections L logging (defaultToAll f) s

/-- How a run stands. -/
inductive Status
  /-- `os.Exit(code)` -/
  | exited (code : Nat)
  /-- `main` returned: the process ends with code 0 -/
  | returned
  /-- still inside the refresh loop -/
  | running
deriving DecidableEq

/-- A run: what was written, how it stands, and `refreshCount`. -/
structure Run where
  out : List Ev
  status : Status
  refreshCount : ℤ

/-- The process exit code of a run that has ended. -/
def Run.exitCode (r : Run) : Option Nat :=
  match r.status with
  | Status.exited c => some c
  | Status.returned => some 0
  | Status.running => none

/-- The `for` loop of `main`, for at most `fuel` passes, starting at pass
number `i`.  It ends in `returned` after the `break`, with the farewell and
the summary written; it is `running` when the passes are used up.
`refreshCount` counts passes of a loop that writes to the terminal in every
pass, so it stays far below the range of `int` and is an integer here. -/
def refreshLoop (L : Lib) (E : Env) (logging : Bool) :
    (fuel : Nat) → (i : Nat) → (f : Flags) → (refreshCount : ℤ) → Run
  | 0, _, _, refreshCount => ⟨[], Status.running, refreshCount⟩
  | fuel + 1, i, f, refreshCount =>
    let out := cycleBody L logging f (E.samples i)
    let f := defaultToAll f
    let refreshCount := refreshCount + 1
    if f.refresh ≤ 0 then
      ⟨out ++
        logPrintln logging "👋 Exiting SysPeek. Thanks for monitoring with us!" ++
        logOutput logging ("⏱️  Total runtime: " ++ E.runtime ++ "\n") ++
        logOutput logging ("🔁 Total refreshes: " ++ fmtInt refreshCount ++ "\n"),
       Status.returned, refreshCount⟩
    else
      let r := refreshLoop L E logging fuel (i + 1) f refreshCount
      ⟨out ++ r.out, r.status, r.refreshCount⟩

/-- The manual `--help` check: exactly one argument, `--help` or `-h`. -/
def isHelpInvocation (osArgs : List String) : Bool :=
  match osArgs with
  | [_, a] => a == "--help" || a == "-h"
  | _ => false

/-- The early `--version` check: exactly one argument, `--version`. -/
def isVersionInvocation (osArgs : List String) : Bool :=
  match osArgs with
  | [_, a] => a == "--version"
  | _ => false

/-- What `main` does once the flags are validated. -/
def mainValidated (L : Lib) (E : Env) (logging : Bool) (f : Flags) (fuel : Nat) : Run :=
  if f.showVersion then
    ⟨logOutput logging ("SysPeek version " ++ version ++ "\n"), Status.returned, 0⟩
  else
    refreshLoop L E logging fuel 0 f 0

/-- What `main` does once the loggers are set up. -/
def mainLogged (L : Lib) (E : Env) (logging : Bool) (osArgs : List String) (f : Flags)
    (fuel : Nat) : Run :=
  if isVersionInvocation osArgs then
    ⟨fmtPrintln ("🧪 SysPeek Version: " ++ version), Status.exited 0, 0⟩
  else if decide (f.refresh > 0) && !f.showCPU && !f.showMem && !f.showNet && !f.showDisk
      && !f.showAll then
    ⟨logPrintln logging
      "⚠️ Error: Refresh is set but no data flags selected. Use --all or individual flags.",
     Status.exited 1, 0⟩
  else if !f.showCPU && !f.showMem && !f.showNet && !f.showDisk && !f.showAll then
    ⟨logPrintln logging
      "⚠️ Error: Please specify at least one of --cpu, --mem, --net, --disk, or --all",
     Status.exited 1, 0⟩
  else
    mainValidated L E logging f fuel

/-- Function `main` after `flag.Parse()` has returned flags `f` for the
command line `osArgs` (`os.Args`, the program name first), run for at most
`fuel` passes of the refresh loop.  Package `flag` is not part of the
embedding: the properties hold for every pair of a command line and flags,
and the examples pair a command line with the flags `flag.Parse()` reads
from it (one or two dashes before a flag name are equivalent there). -/
def main (L : Lib) (E : Env) (osArgs : List String) (f : Flags) (fuel : Nat) : Run :=
  if isHelpInvocation osArgs then
    if f.logPath ≠ "" then
      match E.openFile f.logPath with
      | Except.error err =>
        ⟨fmtPrintln ("⚠️ Could not open log file: " ++ err), Status.exited 1, 0⟩
      | Except.ok _ =>
        ⟨logPrintln true "✅ Logging works — writing help output to log file now:" ++
          [Ev.stderr L.defaultUsage], Status.exited 0, 0⟩
    else
      ⟨[Ev.stderr L.defaultUsage], Status.exited 0, 0⟩
  else if f.logPath ≠ "" then
    match E.openFile f.logPath with
    | Except.error err =>
      ⟨fmtPrintln ("⚠️ Could not open log file: " ++ err), Status.exited 1, 0⟩
    | Except.ok _ => mainLogged L E true osArgs f fuel
  else
    mainLogged L E false osArgs f fuel

/-! ## Vocabulary of the properties -/

/-- The usage records of the partitions whose usage query succeeded, in
enumeration order. -/
def successes (ps : List (PartitionStat × Except String UsageStat)) : List UsageStat :=
  ps.filterMap fun p =>
    match p.2 with
    | Except.ok u => some u
    | Except.error _ => none

/-- The terminal line of one usage record: its text and its colour band. -/
def diskLine (L : Lib) (u : UsageStat) : TermWrite :=
  ⟨some (if u.usedPercent.ge 85 then Colour.red
      else if u.usedPercent.ge 60 then Colour.yellow else Colour.green),
    "💽 " ++ u.path ++ " — Used: " ++ L.fmt2 u.usedPercent ++ "% of " ++
      L.fmt2 (bytesToGB L.round u.total) ++ " GB\n"⟩

/-- A section header on the terminal: the writes of `color.New(color.FgCyan)`. -/
def isHeaderWrite (w : TermWrite) : Bool :=
  decide (w.colour = some Colour.cyan)

/-- The section headers a configuration selects, in the fixed order:
System Info always, Uptime with `--all`, the others with `--all` or their
own flag. -/
def selectedHeaders (f : Flags) : List String :=
  ([(true, "=== System Info ==="),
    (f.showAll, "=== Uptime ==="),
    (f.showAll || f.showMem, "=== Memory Usage ==="),
    (f.showAll || f.showCPU, "=== CPU Usage ==="),
    (f.showAll || f.showDisk, "=== Disk Usage ==="),
    (f.showAll || f.showNet, "=== Network I/O ===")].filter Prod.fst).map Prod.snd

/-- A section on the terminal: its header, its body, a blank line. -/
def sectionWrites (header : String) (body : List TermWrite) : List TermWrite :=
  (⟨some Colour.cyan, header ++ "\n"⟩ : TermWrite) :: body ++ [⟨none, "\n"⟩]

/-- The section headers as the log file gets them, for the sections a
configuration selects. -/
def logHeaders (f : Flags) : List String :=
  (if f.showAll || f.showCPU || f.showMem || f.showNet || f.showDisk then
    ["=== System Info ===\n"] else []) ++
  (if f.showAll then ["=== Uptime ===\n"] else []) ++
  (if f.showAll || f.showMem then ["=== Memory Usage ===\n"] else []) ++
  (if f.showAll || f.showCPU then ["=== CPU Usage ===\n"] else []) ++
  (if f.showAll || f.showDisk then ["=== Disk Usage ===\n"] else []) ++
  (if f.showAll || f.showNet then ["=== Network Usage ===\n"] else [])

/-- The data lines of the system information, or its error line. -/
def infoLines (s : Sample) : List String :=
  match s.info with
  | Except.error e => ["🧠 System Info Error: " ++ e ++ "\n"]
  | Except.ok i =>
    ["🧠 Hostname: " ++ i.hostname ++ "\n",
     "🧬 OS: " ++ i.platform ++ " " ++ i.platformVersion ++ "\n",
     "🧱 Architecture: " ++ i.kernelArch ++ "\n",
     "🧩 Kernel Version: " ++ i.kernelVersion ++ "\n"]

/-- The data line of the uptime, or its error line. -/
def uptimeLines (L : Lib) (s : Sample) : List String :=
  match s.uptime with
  | Except.error e => ["⏱️  Uptime Error: " ++ e ++ "\n"]
  | Except.ok u => ["⏱️  Uptime: " ++ formatDuration L.round (uptimeDuration u) ++ "\n"]

/-- The data line of the memory usage, or its error line. -/
def memoryLines (L : Lib) (s : Sample) : List String :=
  match s.virtualMemory with
  | Except.error e => ["💾 Memory Error: " ++ e ++ "\n"]
  | Except.ok v =>
    ["💾 Memory: " ++ L.fmt2 v.usedPercent ++ "% used of " ++
      L.fmt2 (bytesToGB L.round v.total) ++ " GB\n"]

/-- The data line of the CPU usage, or its error line; nothing for an empty
result. -/
def cpuLines (L : Lib) (s : Sample) : List String :=
  match s.cpuPercent with
  | Except.error e => ["⚙️  CPU Error: " ++ e ++ "\n"]
  | Except.ok [] => []
  | Except.ok (p :: _) => ["⚙️  CPU Usage: " ++ L.fmt2 p ++ "%\n"]

/-- The data lines of the disk usage, or its error line. -/
def diskLines (L : Lib) (s : Sample) : List String :=
  match s.partitions with
  | Except.error e => ["💽 Disk Error: " ++ e ++ "\n"]
  | Except.ok ps => (successes ps).map (fun u => (diskLine L u).text)

/-- The data line of the network counters, or its error line; nothing for an
empty result. -/
def networkLines (L : Lib) (s : Sample) : List String :=
  match s.counters with
  | Except.error e => ["🌐 Network Error: " ++ e ++ "\n"]
  | Except.ok [] => []
  | Except.ok (c :: _) =>
    ["🌐 Network: Sent " ++ L.fmt2 (bytesToMB L.round c.bytesSent) ++ " MB | Received " ++
      L.fmt2 (bytesToMB L.round c.bytesRecv) ++ " MB\n"]

/-- The data lines and error lines of the sections a configuration selects. -/
def dataLines (L : Lib) (f : Flags) (s : Sample) : List String :=
  (if f.showAll || f.showCPU || f.showMem || f.showNet || f.showDisk then
    infoLines s else []) ++
  (if f.showAll then uptimeLines L s else []) ++
  (if f.showAll || f.showMem then memoryLines L s else []) ++
  (if f.showAll || f.showCPU then cpuLines L s else []) ++
  (if f.showAll || f.showDisk then diskLines L s else []) ++
  (if f.showAll || f.showNet then networkLines L s else [])

/-- The text holds no escape character, so no terminal escape sequence. -/
def escapeFree (s : String) : Prop := '\x1b' ∉ s.data

instance escapeFree.decidable (s : String) : Decidable (escapeFree s) :=
  inferInstanceAs (Decidable ('\x1b' ∉ s.data))

/-- Verb `%.2f` produces no escape character. -/
def Lib.escapeFree (L : Lib) : Prop := ∀ x, SysPeek.escapeFree (L.fmt2 x)

/-- The texts the providers return hold no escape character: the host
information, the error messages, the paths of the usage records. -/
def Sample.escapeFree (s : Sample) : Prop :=
  (match s.info with
    | Except.error e => SysPeek.escapeFree e
    | Except.ok i => SysPeek.escapeFree i.hostname ∧ SysPeek.escapeFree i.platform ∧
      SysPeek.escapeFree i.platformVersion ∧ SysPeek.escapeFree i.kernelArch ∧
      SysPeek.escapeFree i.kernelVersion) ∧
  (∀ e, s.uptime = Except.error e → SysPeek.escapeFree e) ∧
  (∀ e, s.virtualMemory = Except.error e → SysPeek.escapeFree e) ∧
  (∀ e, s.cpuPercent = Except.error e → SysPeek.escapeFree e) ∧
  (match s.partitions with
    | Except.error e => SysPeek.escapeFree e
    | Except.ok ps => ∀ u ∈ successes ps, SysPeek.escapeFree u.path) ∧
  (∀ e, s.counters = Except.error e → SysPeek.escapeFree e)

/-- What the log file gets for a terminal write of a section: its text
without the colour, except that the network header is logged under another
name. -/
def logText (w : TermWrite) : String :=
  if w = ⟨some Colour.cyan, "=== Network I/O ===\n"⟩ then "=== Network Usage ===\n"
  else w.text

/-! ## Example inputs -/

/-- Rounding to the nearest integer, ties to even. -/
def roundHalfEven (x : ℚ) : ℤ :=
  if x - ⌊x⌋ < 1 / 2 then ⌊x⌋
  else if 1 / 2 < x - ⌊x⌋ then ⌊x⌋ + 1
  else if ⌊x⌋ % 2 = 0 then ⌊x⌋ else ⌊x⌋ + 1

/-- A rendering of verb `%.2f`. -/
def fmt2 : F64 → String
  | F64.nan => "NaN"
  | F64.posInf => "+Inf"
  | F64.negInf => "-Inf"
  | F64.fin q =>
    let n := roundHalfEven (|q| * 100)
    (if q < 0 then "-" else "") ++ toString (n / 100) ++ "." ++
      (if n % 100 < 10 then "0" else "") ++ toString (n % 100)

/-- Libraries with exact arithmetic and a one row banner. -/
def exampleLib : Lib :=
  ⟨Rounding.exactArith, fmt2, ["SysPeek"], "Usage of syspeek:\n"⟩

/-- A cycle in which every provider answers. -/
def exampleSample : Sample where
  info := Except.ok ⟨"host", "ubuntu", "22.04", "x86_64", "5.15.0"⟩
  uptime := Except.ok 90061
  virtualMemory := Except.ok ⟨F64.fin 42, 17179869184⟩
  cpuPercent := Except.ok [F64.fin 12]
  partitions := Except.ok [(⟨"/"⟩, Except.ok ⟨"/", F64.fin 71, 536870912000⟩)]
  counters := Except.ok [⟨1048576, 2097152⟩]

/-- A cycle in which `cpu.Percent` returns an empty list and no error. -/
def emptyCpuSample : Sample :=
  { exampleSample with cpuPercent := Except.ok [] }

/-- A cycle in which every provider fails. -/
def failingSample : Sample where
  info := Except.error "host: permission denied"
  uptime := Except.error "uptime: permission denied"
  virtualMemory := Except.error "meminfo: permission denied"
  cpuPercent := Except.error "stat: permission denied"
  partitions := Except.error "mounts: permission denied"
  counters := Except.error "net/dev: permission denied"

/-- An environment in which the log file opens and every cycle samples
`exampleSample`. -/
def exampleEnv : Env :=
  ⟨fun _ => Except.ok (), fun _ => exampleSample, "0s"⟩

/-- An environment whose cycles sample `emptyCpuSample`. -/
def emptyCpuEnv : Env :=
  ⟨fun _ => Except.ok (), fun _ => emptyCpuSample, "0s"⟩

/-- An environment in which the log file cannot be opened. -/
def noLogEnv : Env :=
  ⟨fun _ => Except.error "open /nonexistent/syspeek.log: no such file or directory",
    fun _ => exampleSample, "0s"⟩

/-- The flags of `syspeek --cpu`. -/
def cpuOnly : Flags :=
  { Flags.default with showCPU := true }

/-- The flags of `syspeek --cpu --log=syspeek.log`. -/
def cpuLogged : Flags :=
  { Flags.default with showCPU := true, logPath := "syspeek.log" }

/-- The flags of `syspeek --cpu --version`. -/
def cpuVersion : Flags :=
  { Flags.default with showCPU := true, showVersion := true }

/-- The flags of `syspeek --cpu --refresh=2`. -/
def cpuEveryTwoSeconds : Flags :=
  { Flags.default with showCPU := true, refresh := 2 }

/-- The flags of `syspeek --net --log=syspeek.log`. -/
def netLogged : Flags :=
  { Flags.default with showNet := true, logPath := "syspeek.log" }

/-- The flags of `syspeek -version`. -/
def versionOnly : Flags :=
  { Flags.default with showVersion := true }

/-- The flags of `syspeek --version --refresh=5`. -/
def versionRefresh : Flags :=
  { Flags.default with showVersion := true, refresh := 5 }

/-- The flags of `syspeek --log=/nonexistent/syspeek.log`. -/
def logOnly : Flags :=
  { Flags.default with logPath := "/nonexistent/syspeek.log" }

/-! # Properties -/

/-! ## Projections of the writers -/

@[simp] theorem termOf_append (a b : List Ev) : termOf (a ++ b) = termOf a ++ termOf b := by
  induction a with
  | nil => rfl
  | cons e es ih => cases e <;> simp [termOf, ih]

@[simp] theorem fileOf_append (a b : List Ev) : fileOf (a ++ b) = fileOf a ++ fileOf b := by
  induction a with
  | nil => rfl
  | cons e es ih => cases e <;> simp [fileOf, ih]

@[simp] theorem ensureNewline_newline (s : String) : ensureNewline (s ++ "\n") = s ++ "\n" := by
  have h : (s ++ "\n").data.getLast? = some '\n' := by
    rw [String.data_append]
    simp
  simp [ensureNewline, h]

@[simp] theorem termOf_logOutput (b : Bool) (s : String) :
    termOf (logOutput b s) = [⟨none, ensureNewline s⟩] := by
  cases b <;> rfl

@[simp] theorem fileOf_logOutput (b : Bool) (s : String) :
    fileOf (logOutput b s) = if b then [ensureNewline s] else [] := by
  cases b <;> rfl

@[simp] theorem termOf_logPrintln (b : Bool) (s : String) :
    termOf (logPrintln b s) = [⟨none, s ++ "\n"⟩] := by
  simp [logPrintln]

@[simp] theorem fileOf_logPrintln (b : Bool) (s : String) :
    fileOf (logPrintln b s) = if b then [s ++ "\n"] else [] := by
  simp [logPrintln]

@[simp] theorem termOf_logFileOnlyOutput (b : Bool) (s : String) :
    termOf (logFileOnlyOutput b s) = [] := by
  cases b <;> rfl

@[simp] theorem fileOf_logFileOnlyOutput (b : Bool) (s : String) :
    fileOf (logFileOnlyOutput b s) = if b then [ensureNewline s] else [] := by
  cases b <;> rfl

@[simp] theorem termOf_logFileOnlyPrintln (b : Bool) (s : String) :
    termOf (logFileOnlyPrintln b s) = [] := by
  simp [logFileOnlyPrintln]

@[simp] theorem fileOf_logFileOnlyPrintln (b : Bool) (s : String) :
    fileOf (logFileOnlyPrintln b s) = if b then [s ++ "\n"] else [] := by
  simp [logFileOnlyPrintln]

@[simp] theorem termOf_colorPrint (c : Colour) (s : String) :
    termOf (colorPrint c s) = [⟨some c, s⟩] := rfl

@[simp] theorem fileOf_colorPrint (c : Colour) (s : String) :
    fileOf (colorPrint c s) = [] := rfl

@[simp] theorem termOf_colorPrintln (c : Colour) (s : String) :
    termOf (colorPrintln c s) = [⟨some c, s ++ "\n"⟩] := rfl

@[simp] theorem fileOf_colorPrintln (c : Colour) (s : String) :
    fileOf (colorPrintln c s) = [] := rfl

@[simp] theorem termOf_fmtPrintln (s : String) :
    termOf (fmtPrintln s) = [⟨none, s ++ "\n"⟩] := rfl

@[simp] theorem fileOf_fmtPrintln (s : String) : fileOf (fmtPrintln s) = [] := rfl

/-! ## Colour bands -/

/-- C1: for every percent value `p` (a finite `float64`, which is a rational
number), the terminal line of `printMemoryUsage`, of `printCPUUsage` and of
`printDiskUsage` carries one and the same colour, which is red iff `p >= 85`,
yellow iff `60 <= p < 85` and green iff `p < 60`. -/
theorem C1_colour_bands (L : Lib) (logging : Bool) (p : ℚ) (total : Nat)
    (part : PartitionStat) (path : String) :
    ∃ c : Colour,
      (termOf (printMemoryUsage L logging (F64.fin p) total)).map TermWrite.colour =
        [some c] ∧
      (termOf (printCPUUsage L logging (F64.fin p))).map TermWrite.colour = [some c] ∧
      (termOf (printDiskUsage L logging
        (Except.ok [(part, Except.ok ⟨path, F64.fin p, total⟩)]))).map TermWrite.colour =
        [some c] ∧
      (c = Colour.red ↔ 85 ≤ p) ∧
      (c = Colour.yellow ↔ (60 ≤ p ∧ p < 85)) ∧
      (c = Colour.green ↔ p < 60) := by
  refine ⟨if (F64.fin p).ge 85 then Colour.red
    else if (F64.fin p).ge 60 then Colour.yellow else Colour.green, ?_, ?_, ?_, ?_, ?_, ?_⟩
  · simp [printMemoryUsage]
  · simp [printCPUUsage]
  · simp [printDiskUsage, printDiskUsage.loop, termOf]
  · simp only [F64.ge]
    by_cases h1 : (85 : ℚ) ≤ p
    · simp [h1]
    · by_cases h2 : (60 : ℚ) ≤ p <;> simp [h1, h2]
  · simp only [F64.ge]
    by_cases h1 : (85 : ℚ) ≤ p
    · simp [h1]
    · by_cases h2 : (60 : ℚ) ≤ p
      · simp [h1, h2]
        exact lt_of_not_le h1
      · simp [h1, h2]
  · simp only [F64.ge]
    by_cases h1 : (85 : ℚ) ≤ p
    · have : ¬ p < 60 := by linarith
      simp [h1, this]
    · by_cases h2 : (60 : ℚ) ≤ p
      · simp [h1, h2]
      · simp [h1, h2]
        exact lt_of_not_le h2

/-- The boundary values of C1: 59.99 is green, 60 and 84.99 are yellow, 85 is
red, in each of the three functions. -/
theorem C1_colour_bands_witness :
    ((termOf (printMemoryUsage exampleLib false (F64.fin (5999 / 100)) 0)).map TermWrite.colour =
        [some Colour.green] ∧
      (termOf (printCPUUsage exampleLib false (F64.fin (5999 / 100)))).map TermWrite.colour =
        [some Colour.green] ∧
      (termOf (printDiskUsage exampleLib false (Except.ok
        [(⟨"/"⟩, Except.ok ⟨"/", F64.fin (5999 / 100), 0⟩)]))).map TermWrite.colour =
        [some Colour.green]) ∧
    ((termOf (printMemoryUsage exampleLib false (F64.fin 60) 0)).map TermWrite.colour =
        [some Colour.yellow] ∧
      (termOf (printCPUUsage exampleLib false (F64.fin 60))).map TermWrite.colour =
        [some Colour.yellow] ∧
      (termOf (printDiskUsage exampleLib false (Except.ok
        [(⟨"/"⟩, Except.ok ⟨"/", F64.fin 60, 0⟩)]))).map TermWrite.colour =
        [some Colour.yellow]) ∧
    ((termOf (printMemoryUsage exampleLib false (F64.fin (8499 / 100)) 0)).map TermWrite.colour =
        [some Colour.yellow] ∧
      (termOf (printCPUUsage exampleLib false (F64.fin (8499 / 100)))).map TermWrite.colour =
        [some Colour.yellow] ∧
      (termOf (printDiskUsage exampleLib false (Except.ok
        [(⟨"/"⟩, Except.ok ⟨"/", F64.fin (8499 / 100), 0⟩)]))).map TermWrite.colour =
        [some Colour.yellow]) ∧
    ((termOf (printMemoryUsage exampleLib false (F64.fin 85) 0)).map TermWrite.colour =
        [some Colour.red] ∧
      (termOf (printCPUUsage exampleLib false (F64.fin 85))).map TermWrite.colour =
        [some Colour.red] ∧
      (termOf (printDiskUsage exampleLib false (Except.ok
        [(⟨"/"⟩, Except.ok ⟨"/", F64.fin 85, 0⟩)]))).map TermWrite.colour =
        [some Colour.red]) := by
  refine ⟨?_, ?_, ?_, ?_⟩
  · obtain ⟨c, h1, h2, h3, _, _, hg⟩ :=
      C1_colour_bands exampleLib false (5999 / 100) 0 ⟨"/"⟩ "/"
    have hc : c = Colour.green := hg.mpr (by norm_num)
    subst hc
    exact ⟨h1, h2, h3⟩
  · obtain ⟨c, h1, h2, h3, _, hy, _⟩ := C1_colour_bands exampleLib false 60 0 ⟨"/"⟩ "/"
    have hc : c = Colour.yellow := hy.mpr (by norm_num)
    subst hc
    exact ⟨h1, h2, h3⟩
  · obtain ⟨c, h1, h2, h3, _, hy, _⟩ :=
      C1_colour_bands exampleLib false (8499 / 100) 0 ⟨"/"⟩ "/"
    have hc : c = Colour.yellow := hy.mpr (by norm_num)
    subst hc
    exact ⟨h1, h2, h3⟩
  · obtain ⟨c, h1, h2, h3, hr, _, _⟩ := C1_colour_bands exampleLib false 85 0 ⟨"/"⟩ "/"
    have hc : c = Colour.red := hr.mpr (by norm_num)
    subst hc
    exact ⟨h1, h2, h3⟩

/-- A percent that is not a number takes the `default` case of the three
switches, green; the infinities fall in the bands their order gives, red for
the positive and green for the negative one. -/
theorem nonfinite_colour (L : Lib) (logging : Bool) (total : Nat) (part : PartitionStat)
    (path : String) :
    ((termOf (printMemoryUsage L logging F64.nan total)).map TermWrite.colour =
        [some Colour.green] ∧
      (termOf (printCPUUsage L logging F64.nan)).map TermWrite.colour = [some Colour.green] ∧
      (termOf (printDiskUsage L logging
        (Except.ok [(part, Except.ok ⟨path, F64.nan, total⟩)]))).map TermWrite.colour =
        [some Colour.green]) ∧
    ((termOf (printMemoryUsage L logging F64.posInf total)).map TermWrite.colour =
        [some Colour.red] ∧
      (termOf (printCPUUsage L logging F64.posInf)).map TermWrite.colour = [some Colour.red] ∧
      (termOf (printDiskUsage L logging
        (Except.ok [(part, Except.ok ⟨path, F64.posInf, total⟩)]))).map TermWrite.colour =
        [some Colour.red]) ∧
    ((termOf (printMemoryUsage L logging F64.negInf total)).map TermWrite.colour =
        [some Colour.green] ∧
      (termOf (printCPUUsage L logging F64.negInf)).map TermWrite.colour =
        [some Colour.green] ∧
      (termOf (printDiskUsage L logging
        (Except.ok [(part, Except.ok ⟨path, F64.negInf, total⟩)]))).map TermWrite.colour =
        [some Colour.green]) := by
  simp [printMemoryUsage, printCPUUsage, printDiskUsage, printDiskUsage.loop, termOf, F64.ge]

/-! ## Disk usage -/

theorem ensureNewline_append (s t : String) (h : t.data.getLast? = some '\n') :
    ensureNewline (s ++ t) = s ++ t := by
  have h2 : (s ++ t).data.getLast? = some '\n' := by
    rw [String.data_append]
    have ht : t.data ≠ [] := by
      intro h0
      rw [h0] at h
      simp at h
    rw [List.getLast?_append_of_ne_nil _ ht]
    exact h
  unfold ensureNewline
  rw [if_pos h2]

@[simp] theorem ensureNewline_GB (s : String) : ensureNewline (s ++ " GB\n") = s ++ " GB\n" :=
  ensureNewline_append s _ (by decide)

@[simp] theorem ensureNewline_MB (s : String) : ensureNewline (s ++ " MB\n") = s ++ " MB\n" :=
  ensureNewline_append s _ (by decide)

@[simp] theorem ensureNewline_percent (s : String) : ensureNewline (s ++ "%\n") = s ++ "%\n" :=
  ensureNewline_append s _ (by decide)

theorem termOf_diskLoop (L : Lib) (logging : Bool)
    (ps : List (PartitionStat × Except String UsageStat)) :
    termOf (printDiskUsage.loop L logging ps) = (successes ps).map (diskLine L) := by
  induction ps with
  | nil => rfl
  | cons p ps ih =>
    obtain ⟨part, r⟩ := p
    cases r with
    | error e => simpa [printDiskUsage.loop, successes] using ih
    | ok u =>
      simp only [printDiskUsage.loop, termOf_append, termOf_colorPrint,
        termOf_logFileOnlyOutput, ih]
      simp [successes, diskLine]

theorem fileOf_diskLoop (L : Lib) (logging : Bool)
    (ps : List (PartitionStat × Except String UsageStat)) :
    fileOf (printDiskUsage.loop L logging ps) =
      if logging then (successes ps).map (fun u => (diskLine L u).text) else [] := by
  induction ps with
  | nil => cases logging <;> rfl
  | cons p ps ih =>
    obtain ⟨part, r⟩ := p
    cases r with
    | error e => simpa [printDiskUsage.loop, successes] using ih
    | ok u =>
      simp only [printDiskUsage.loop, fileOf_append, fileOf_colorPrint,
        fileOf_logFileOnlyOutput, ih]
      cases logging <;> simp [successes, diskLine]

/-- C7: `printDiskUsage` writes exactly one formatted line for each partition
whose usage query succeeded, in enumeration order, and nothing for a
partition whose query failed (with A and C succeeding and B failing: the
line of A, then the line of C); when the enumeration itself fails it writes
the disk error line and no partition line. -/
theorem C7_disk_lines (L : Lib) (logging : Bool) :
    (∀ ps : List (PartitionStat × Except String UsageStat),
      termOf (printDiskUsage L logging (Except.ok ps)) = (successes ps).map (diskLine L) ∧
      fileOf (printDiskUsage L logging (Except.ok ps)) =
        if logging then (successes ps).map (fun u => (diskLine L u).text) else []) ∧
    (∀ (a b c : PartitionStat) (ua uc : UsageStat) (e : String),
      termOf (printDiskUsage L logging
        (Except.ok [(a, Except.ok ua), (b, Except.error e), (c, Except.ok uc)])) =
        [diskLine L ua, diskLine L uc]) ∧
    (∀ err : String,
      termOf (printDiskUsage L logging (Except.error err)) =
        [⟨none, "💽 Disk Error: " ++ err ++ "\n"⟩] ∧
      fileOf (printDiskUsage L logging (Except.error err)) =
        if logging then ["💽 Disk Error: " ++ err ++ "\n"] else []) ∧
    (∀ (ps : List (PartitionStat × Except String UsageStat)),
      ∀ w ∈ termOf (printDiskUsage L logging (Except.ok ps)), w.colour ≠ none) := by
  refine ⟨fun ps => ⟨?_, ?_⟩, fun a b c ua uc e => ?_, fun err => ⟨?_, ?_⟩, fun ps w hw => ?_⟩
  · simpa [printDiskUsage] using termOf_diskLoop L logging ps
  · simpa [printDiskUsage] using fileOf_diskLoop L logging ps
  · simp [printDiskUsage, termOf_diskLoop, successes]
  · simp [printDiskUsage]
  · simp [printDiskUsage]
  · simp only [printDiskUsage, termOf_diskLoop, List.mem_map] at hw
    obtain ⟨u, _, rfl⟩ := hw
    simp [diskLine]

/-! ## Sections of a refresh cycle -/

theorem termOf_bannerRows (rows : List String) :
    termOf (rows.flatMap fmtPrintln) = rows.map (fun r => ⟨none, r ++ "\n"⟩) := by
  induction rows with
  | nil => rfl
  | cons r rs ih => simp [List.flatMap_cons, ih]

theorem fileOf_bannerRows (rows : List String) :
    fileOf (rows.flatMap fmtPrintln) = [] := by
  induction rows with
  | nil => rfl
  | cons r rs ih => simp [List.flatMap_cons, ih]

theorem diskLine_not_header (L : Lib) (u : UsageStat) : isHeaderWrite (diskLine L u) = false := by
  unfold isHeaderWrite diskLine
  split_ifs <;> simp

theorem systemInfoSection_shape (logging : Bool) (s : Sample) :
    ∃ b, (∀ w ∈ b, isHeaderWrite w = false) ∧
      termOf (systemInfoSection logging s) = sectionWrites "=== System Info ===" b := by
  refine ⟨termOf (printSystemInfo logging s.info), ?_, ?_⟩
  · cases h : s.info <;> simp [printSystemInfo, isHeaderWrite]
  · simp [systemInfoSection, sectionWrites]

theorem uptimeSection_shape (L : Lib) (logging : Bool) (s : Sample) :
    ∃ b, (∀ w ∈ b, isHeaderWrite w = false) ∧
      termOf (uptimeSection L logging s) = sectionWrites "=== Uptime ===" b := by
  cases h : s.uptime with
  | error e =>
    exact ⟨[⟨none, "⏱️  Uptime Error: " ++ e ++ "\n"⟩], by simp [isHeaderWrite],
      by simp [uptimeSection, sectionWrites, h]⟩
  | ok u =>
    exact ⟨[⟨none, "⏱️  Uptime: " ++ formatDuration L.round (uptimeDuration u) ++ "\n"⟩],
      by simp [isHeaderWrite], by simp [uptimeSection, sectionWrites, h]⟩

theorem memorySection_shape (L : Lib) (logging : Bool) (s : Sample) :
    ∃ b, (∀ w ∈ b, isHeaderWrite w = false) ∧
      termOf (memorySection L logging s) = sectionWrites "=== Memory Usage ===" b := by
  cases h : s.virtualMemory with
  | error e =>
    exact ⟨[⟨none, "💾 Memory Error: " ++ e ++ "\n"⟩], by simp [isHeaderWrite],
      by simp [memorySection, sectionWrites, h]⟩
  | ok v =>
    refine ⟨termOf (printMemoryUsage L logging v.usedPercent v.total), ?_, ?_⟩
    · simp only [printMemoryUsage, termOf_append, termOf_colorPrint, termOf_logFileOnlyOutput]
      intro w hw
      simp at hw
      subst hw
      unfold isHeaderWrite
      split_ifs <;> simp
    · simp [memorySection, sectionWrites, h]

theorem cpuSection_shape (L : Lib) (logging : Bool) (s : Sample) :
    ∃ b, (∀ w ∈ b, isHeaderWrite w = false) ∧
      termOf (cpuSection L logging s) = sectionWrites "=== CPU Usage ===" b := by
  cases h : s.cpuPercent with
  | error e =>
    exact ⟨[⟨none, "⚙️  CPU Error: " ++ e ++ "\n"⟩], by simp [isHeaderWrite],
      by simp [cpuSection, sectionWrites, h]⟩
  | ok ps =>
    cases ps with
    | nil => exact ⟨[], by simp, by simp [cpuSection, sectionWrites, h]⟩
    | cons p ps =>
      refine ⟨termOf (printCPUUsage L logging p), ?_, ?_⟩
      · simp only [printCPUUsage, termOf_append, termOf_colorPrint, termOf_logFileOnlyOutput]
        intro w hw
        simp at hw
        subst hw
        unfold isHeaderWrite
        split_ifs <;> simp
      · simp [cpuSection, sectionWrites, h]

theorem diskSection_shape (L : Lib) (logging : Bool) (s : Sample) :
    ∃ b, (∀ w ∈ b, isHeaderWrite w = false) ∧
      termOf (diskSection L logging s) = sectionWrites "=== Disk Usage ===" b := by
  refine ⟨termOf (printDiskUsage L logging s.partitions), ?_, ?_⟩
  · cases h : s.partitions with
    | error e => simp [printDiskUsage, isHeaderWrite]
    | ok ps =>
      simp only [printDiskUsage, termOf_diskLoop]
      intro w hw
      obtain ⟨u, _, rfl⟩ := List.mem_map.mp hw
      exact diskLine_not_header L u
  · simp [diskSection, sectionWrites]

theorem networkSection_shape (L : Lib) (logging : Bool) (s : Sample) :
    ∃ b, (∀ w ∈ b, isHeaderWrite w = false) ∧
      termOf (networkSection L logging s) = sectionWrites "=== Network I/O ===" b := by
  cases h : s.counters with
  | error e =>
    exact ⟨[⟨none, "🌐 Network Error: " ++ e ++ "\n"⟩], by simp [isHeaderWrite],
      by simp [networkSection, sectionWrites, h]⟩
  | ok cs =>
    cases cs with
    | nil => exact ⟨[], by simp, by simp [networkSection, sectionWrites, h]⟩
    | cons c cs =>
      exact ⟨[⟨none, "🌐 Network: Sent " ++ L.fmt2 (bytesToMB L.round c.bytesSent) ++
        " MB | Received " ++ L.fmt2 (bytesToMB L.round c.bytesRecv) ++ " MB\n"⟩],
        by simp [isHeaderWrite], by simp [networkSection, sectionWrites, h]⟩

theorem headers_of_sections (hs : List String) :
    ∀ bodies : List (List TermWrite), bodies.length = hs.length →
      (∀ b ∈ bodies, ∀ w ∈ b, isHeaderWrite w = false) →
      (((List.zipWith sectionWrites hs bodies).flatten).filter isHeaderWrite).map
        TermWrite.text = hs.map (fun h => h ++ "\n") := by
  induction hs with
  | nil => intro bodies _ _; simp
  | cons h hs ih =>
    intro bodies hlen hno
    cases bodies with
    | nil => simp at hlen
    | cons b bs =>
      have hb : b.filter isHeaderWrite = [] := by
        rw [List.filter_eq_nil_iff]
        intro w hw
        simp [hno b (by simp) w hw]
      have ih2 := ih bs (by simpa using hlen) (fun b2 hb2 => hno b2 (by simp [hb2]))
      simp only [List.zipWith_cons_cons, List.flatten_cons, List.filter_append, List.map_append,
        ih2]
      simp [sectionWrites, List.filter_cons, isHeaderWrite, hb]

theorem termOf_cycleHead_no_header (L : Lib) (logging : Bool) :
    (termOf (cycleHead L logging)).filter isHeaderWrite = [] := by
  rw [List.filter_eq_nil_iff]
  intro w hw
  simp only [cycleHead, termOf_append, termOf_logOutput, termOf_logPrintln, termOf_bannerRows,
    List.mem_append, List.mem_singleton, List.mem_map] at hw
  rcases hw with ((rfl | ⟨r, _, rfl⟩) | rfl) | rfl <;> simp [isHeaderWrite]

/-- C4: in a refresh cycle of a configuration that reached the loop, whatever
the providers return, the section headers on the terminal are exactly the
headers the configuration selects out of System Info, Uptime, Memory Usage,
CPU Usage, Disk Usage, Network I/O, in that order, and the terminal output
after the cycle head is one block per selected section: the header, a body
without a header, a blank line. -/
theorem C4_section_order (L : Lib) (logging : Bool) (f : Flags) (s : Sample)
    (hsel : f.noneSelected = false) :
    ((termOf (cycleBody L logging f s)).filter isHeaderWrite).map TermWrite.text =
        (selectedHeaders f).map (fun h => h ++ "\n") ∧
    ∃ bodies : List (List TermWrite),
      bodies.length = (selectedHeaders f).length ∧
      (∀ b ∈ bodies, ∀ w ∈ b, isHeaderWrite w = false) ∧
      termOf (cycleBody L logging f s) =
        termOf (cycleHead L logging) ++
          (List.zipWith sectionWrites (selectedHeaders f) bodies).flatten := by
  obtain ⟨b1, hb1, e1⟩ := systemInfoSection_shape logging s
  obtain ⟨b2, hb2, e2⟩ := uptimeSection_shape L logging s
  obtain ⟨b3, hb3, e3⟩ := memorySection_shape L logging s
  obtain ⟨b4, hb4, e4⟩ := cpuSection_shape L logging s
  obtain ⟨b5, hb5, e5⟩ := diskSection_shape L logging s
  obtain ⟨b6, hb6, e6⟩ := networkSection_shape L logging s
  have key : ∃ bodies : List (List TermWrite),
      bodies.length = (selectedHeaders f).length ∧
      (∀ b ∈ bodies, ∀ w ∈ b, isHeaderWrite w = false) ∧
      termOf (cycleBody L logging f s) =
        termOf (cycleHead L logging) ++
          (List.zipWith sectionWrites (selectedHeaders f) bodies).flatten := by
    refine ⟨[b1] ++ (if f.showAll then [b2] else []) ++
      (if f.showAll || f.showMem then [b3] else []) ++
      (if f.showAll || f.showCPU then [b4] else []) ++
      (if f.showAll || f.showDisk then [b5] else []) ++
      (if f.showAll || f.showNet then [b6] else []), ?_, ?_, ?_⟩
    · obtain ⟨cpu, mem, net, all, refresh, ver, log, disk⟩ := f
      cases cpu <;> cases mem <;> cases net <;> cases all <;> cases disk <;>
        simp [selectedHeaders]
    · intro b hb
      simp only [List.mem_append, List.mem_singleton] at hb
      rcases hb with ((((rfl | hb) | hb) | hb) | hb) | hb
      · exact hb1
      · split_ifs at hb <;> simp at hb; subst hb; exact hb2
      · split_ifs at hb <;> simp at hb; subst hb; exact hb3
      · split_ifs at hb <;> simp at hb; subst hb; exact hb4
      · split_ifs at hb <;> simp at hb; subst hb; exact hb5
      · split_ifs at hb <;> simp at hb; subst hb; exact hb6
    · obtain ⟨cpu, mem, net, all, refresh, ver, log, disk⟩ := f
      cases cpu <;> cases mem <;> cases net <;> cases all <;> cases disk <;>
        simp [Flags.noneSelected] at hsel <;>
        simp [cycleBody, cycleSections, defaultToAll, Flags.noneSelected, selectedHeaders,
          e1, e2, e3, e4, e5, e6]
  refine ⟨?_, key⟩
  obtain ⟨bodies, hlen, hno, heq⟩ := key
  rw [heq, List.filter_append, termOf_cycleHead_no_header, List.nil_append]
  exact headers_of_sections _ bodies hlen hno

theorem C4_section_order_witness :
    ((termOf (cycleBody exampleLib false cpuOnly exampleSample)).filter isHeaderWrite).map
      TermWrite.text = ["=== System Info ===\n", "=== CPU Usage ===\n"] :=
  (C4_section_order exampleLib false cpuOnly exampleSample (by decide)).1.trans (by decide)

theorem fmt2_example_percent_42 : exampleLib.fmt2 (F64.fin 42) = "42.00" := by
  simp only [exampleLib, fmt2, roundHalfEven]
  norm_num
  decide

theorem fmt2_example_percent_12 : exampleLib.fmt2 (F64.fin 12) = "12.00" := by
  simp only [exampleLib, fmt2, roundHalfEven]
  norm_num
  decide

theorem fmt2_example_total : exampleLib.fmt2 (bytesToGB exampleLib.round 17179869184) = "16.00" := by
  simp only [exampleLib, fmt2, roundHalfEven, bytesToGB, Rounding.exactArith, id]
  norm_num
  decide

theorem fmt2_example_sent : exampleLib.fmt2 (bytesToMB exampleLib.round 1048576) = "1.00" := by
  simp only [exampleLib, fmt2, roundHalfEven, bytesToMB, Rounding.exactArith, id]
  norm_num
  decide

theorem fmt2_example_recv : exampleLib.fmt2 (bytesToMB exampleLib.round 2097152) = "2.00" := by
  simp only [exampleLib, fmt2, roundHalfEven, bytesToMB, Rounding.exactArith, id]
  norm_num
  decide

/-- C8, as the code has it: between its header and its blank line, the memory
section holds exactly the memory data line (in its colour band) when the
sample succeeded and exactly the memory error line when it failed; the CPU
and the network section hold exactly their error line when the sample
failed, exactly their data line (of the first element) when it succeeded
with a non-empty list, and nothing when it succeeded with an empty list.
With a log file open the file gets the same lines as plain text. -/
theorem C8_section_lines (L : Lib) (logging : Bool) (s : Sample) :
    ((∀ e, s.virtualMemory = Except.error e →
        termOf (memorySection L logging s) =
          sectionWrites "=== Memory Usage ===" [⟨none, "💾 Memory Error: " ++ e ++ "\n"⟩] ∧
        fileOf (memorySection L true s) =
          ["=== Memory Usage ===\n", "💾 Memory Error: " ++ e ++ "\n", "\n"]) ∧
      (∀ v, s.virtualMemory = Except.ok v →
        termOf (memorySection L logging s) =
          sectionWrites "=== Memory Usage ==="
            [⟨some (if v.usedPercent.ge 85 then Colour.red
                else if v.usedPercent.ge 60 then Colour.yellow else Colour.green),
              "💾 Memory: " ++ L.fmt2 v.usedPercent ++ "% used of " ++
                L.fmt2 (bytesToGB L.round v.total) ++ " GB\n"⟩] ∧
        fileOf (memorySection L true s) =
          ["=== Memory Usage ===\n",
           "💾 Memory: " ++ L.fmt2 v.usedPercent ++ "% used of " ++
             L.fmt2 (bytesToGB L.round v.total) ++ " GB\n",
           "\n"])) ∧
    ((∀ e, s.cpuPercent = Except.error e →
        termOf (cpuSection L logging s) =
          sectionWrites "=== CPU Usage ===" [⟨none, "⚙️  CPU Error: " ++ e ++ "\n"⟩] ∧
        fileOf (cpuSection L true s) =
          ["=== CPU Usage ===\n", "⚙️  CPU Error: " ++ e ++ "\n", "\n"]) ∧
      (∀ p ps, s.cpuPercent = Except.ok (p :: ps) →
        termOf (cpuSection L logging s) =
          sectionWrites "=== CPU Usage ==="
            [⟨some (if p.ge 85 then Colour.red
                else if p.ge 60 then Colour.yellow else Colour.green),
              "⚙️  CPU Usage: " ++ L.fmt2 p ++ "%\n"⟩] ∧
        fileOf (cpuSection L true s) =
          ["=== CPU Usage ===\n", "⚙️  CPU Usage: " ++ L.fmt2 p ++ "%\n", "\n"]) ∧
      (s.cpuPercent = Except.ok [] →
        termOf (cpuSection L logging s) = sectionWrites "=== CPU Usage ===" [] ∧
        fileOf (cpuSection L true s) = ["=== CPU Usage ===\n", "\n"])) ∧
    ((∀ e, s.counters = Except.error e →
        termOf (networkSection L logging s) =
          sectionWrites "=== Network I/O ===" [⟨none, "🌐 Network Error: " ++ e ++ "\n"⟩] ∧
        fileOf (networkSection L true s) =
          ["=== Network Usage ===\n", "🌐 Network Error: " ++ e ++ "\n", "\n"]) ∧
      (∀ c cs, s.counters = Except.ok (c :: cs) →
        termOf (networkSection L logging s) =
          sectionWrites "=== Network I/O ==="
            [⟨none, "🌐 Network: Sent " ++ L.fmt2 (bytesToMB L.round c.bytesSent) ++
              " MB | Received " ++ L.fmt2 (bytesToMB L.round c.bytesRecv) ++ " MB\n"⟩] ∧
        fileOf (networkSection L true s) =
          ["=== Network Usage ===\n",
           "🌐 Network: Sent " ++ L.fmt2 (bytesToMB L.round c.bytesSent) ++
             " MB | Received " ++ L.fmt2 (bytesToMB L.round c.bytesRecv) ++ " MB\n",
           "\n"]) ∧
      (s.counters = Except.ok [] →
        termOf (networkSection L logging s) = sectionWrites "=== Network I/O ===" [] ∧
        fileOf (networkSection L true s) = ["=== Network Usage ===\n", "\n"])) := by
  refine ⟨⟨?_, ?_⟩, ⟨?_, ?_, ?_⟩, ⟨?_, ?_, ?_⟩⟩
  · intro e h
    simp [memorySection, sectionWrites, h]
  · intro v h
    simp [memorySection, sectionWrites, h, printMemoryUsage]
  · intro e h
    simp [cpuSection, sectionWrites, h]
  · intro p ps h
    simp [cpuSection, sectionWrites, h, printCPUUsage]
  · intro h
    simp [cpuSection, sectionWrites, h]
  · intro e h
    simp [networkSection, sectionWrites, h]
  · intro c cs h
    simp [networkSection, sectionWrites, h]
  · intro h
    simp [networkSection, sectionWrites, h]

/-- C8 at three samples: every provider answers (one data line per section),
every provider fails (one error line per section), `cpu.Percent` returns an
empty list (no line). -/
theorem C8_section_lines_witness :
    (termOf (memorySection exampleLib false exampleSample) =
        [⟨some Colour.cyan, "=== Memory Usage ===\n"⟩,
         ⟨some Colour.green, "💾 Memory: 42.00% used of 16.00 GB\n"⟩,
         ⟨none, "\n"⟩] ∧
      termOf (cpuSection exampleLib false exampleSample) =
        [⟨some Colour.cyan, "=== CPU Usage ===\n"⟩,
         ⟨some Colour.green, "⚙️  CPU Usage: 12.00%\n"⟩,
         ⟨none, "\n"⟩] ∧
      termOf (networkSection exampleLib false exampleSample) =
        [⟨some Colour.cyan, "=== Network I/O ===\n"⟩,
         ⟨none, "🌐 Network: Sent 1.00 MB | Received 2.00 MB\n"⟩,
         ⟨none, "\n"⟩]) ∧
    (termOf (memorySection exampleLib false failingSample) =
        [⟨some Colour.cyan, "=== Memory Usage ===\n"⟩,
         ⟨none, "💾 Memory Error: meminfo: permission denied\n"⟩,
         ⟨none, "\n"⟩] ∧
      termOf (cpuSection exampleLib false failingSample) =
        [⟨some Colour.cyan, "=== CPU Usage ===\n"⟩,
         ⟨none, "⚙️  CPU Error: stat: permission denied\n"⟩,
         ⟨none, "\n"⟩] ∧
      termOf (networkSection exampleLib false failingSample) =
        [⟨some Colour.cyan, "=== Network I/O ===\n"⟩,
         ⟨none, "🌐 Network Error: net/dev: permission denied\n"⟩,
         ⟨none, "\n"⟩]) ∧
    (termOf (cpuSection exampleLib false emptyCpuSample) =
        [⟨some Colour.cyan, "=== CPU Usage ===\n"⟩, ⟨none, "\n"⟩] ∧
      fileOf (cpuSection exampleLib true emptyCpuSample) = ["=== CPU Usage ===\n", "\n"]) := by
  have hm := ((C8_section_lines exampleLib false exampleSample).1.2
    ⟨F64.fin 42, 17179869184⟩ rfl).1
  have hc := ((C8_section_lines exampleLib false exampleSample).2.1.2.1
    (F64.fin 12) [] rfl).1
  have hn := ((C8_section_lines exampleLib false exampleSample).2.2.2.1
    ⟨1048576, 2097152⟩ [] rfl).1
  have fm := ((C8_section_lines exampleLib false failingSample).1.1 _ rfl).1
  have fc := ((C8_section_lines exampleLib false failingSample).2.1.1 _ rfl).1
  have fn := ((C8_section_lines exampleLib false failingSample).2.2.1 _ rfl).1
  have he := (C8_section_lines exampleLib false emptyCpuSample).2.1.2.2 rfl
  simp only [fmt2_example_percent_42, fmt2_example_total] at hm
  simp only [fmt2_example_percent_12] at hc
  simp only [fmt2_example_sent, fmt2_example_recv] at hn
  refine ⟨⟨hm.trans ?_, hc.trans ?_, hn.trans ?_⟩,
    ⟨fm.trans ?_, fc.trans ?_, fn.trans ?_⟩, ⟨he.1.trans ?_, he.2⟩⟩ <;> decide

/-- The run of `syspeek --cpu` in which `cpu.Percent` returns an empty list
without an error: the CPU section is selected, the sample call succeeded, and
the section holds nothing between its header and its blank line. -/
theorem C8_empty_cpu_section :
    emptyCpuSample.cpuPercent = Except.ok [] ∧
    termOf (main exampleLib emptyCpuEnv ["syspeek", "--cpu"] cpuOnly 1).out =
    [⟨none, "\x1b[H\x1b[2J\n"⟩,
     ⟨none, "SysPeek\n"⟩,
     ⟨none, "🔧 Your Lightweight System Monitor\n"⟩,
     ⟨none, "\n"⟩,
     ⟨some Colour.cyan, "=== System Info ===\n"⟩,
     ⟨none, "🧠 Hostname: host\n"⟩,
     ⟨none, "🧬 OS: ubuntu 22.04\n"⟩,
     ⟨none, "🧱 Architecture: x86_64\n"⟩,
     ⟨none, "🧩 Kernel Version: 5.15.0\n"⟩,
     ⟨none, "\n"⟩,
     ⟨none, "\n"⟩,
     ⟨some Colour.cyan, "=== CPU Usage ===\n"⟩,
     ⟨none, "\n"⟩,
     ⟨none, "👋 Exiting SysPeek. Thanks for monitoring with us!\n"⟩,
     ⟨none, "⏱️  Total runtime: 0s\n"⟩,
     ⟨none, "🔁 Total refreshes: 1\n"⟩] :=
  ⟨rfl, by decide⟩

/-! ## Uptime -/

theorem wrap64_of_range (x : ℤ) (h0 : -2 ^ 63 ≤ x) (h1 : x < 2 ^ 63) : wrap64 x = x := by
  unfold wrap64
  omega

theorem uptimeDuration_eq (s : ℕ) (hs : s * 10 ^ 9 < 2 ^ 63) :
    uptimeDuration s = (s : ℤ) * 1000000000 := by
  unfold uptimeDuration
  have h1 : wrap64 (s : ℤ) = s := wrap64_of_range _ (by omega) (by omega)
  rw [h1]
  exact wrap64_of_range _ (by omega) (by omega)

theorem toInt_rnd_add (R : Rounding) (a : ℤ) (x : ℚ) (ha0 : 0 ≤ a) (ha : a < 2 ^ 40)
    (hx0 : 0 ≤ x) (hx1 : x ≤ 4095 / 4096) :
    toInt (R.rnd (R.rnd a + R.rnd x)) = a := by
  have ea : R.rnd (a : ℚ) = a := by
    have := R.exact a 0 (by rw [abs_of_nonneg ha0]; omega) (by norm_num)
    simpa using this
  have e0 : R.rnd 0 = 0 := by
    have := R.exact 0 0 (by norm_num) (by norm_num)
    simpa using this
  have e1 : R.rnd (4095 / 4096) = 4095 / 4096 := by
    have := R.exact 4095 12 (by norm_num) (by norm_num)
    norm_num at this
    exact this
  have hr0 : 0 ≤ R.rnd x := e0 ▸ R.mono 0 x hx0
  have hr1 : R.rnd x ≤ 4095 / 4096 := e1 ▸ R.mono x _ hx1
  have eu : R.rnd ((a : ℚ) + 4095 / 4096) = (a : ℚ) + 4095 / 4096 := by
    have := R.exact (a * 4096 + 4095) 12 (by rw [abs_of_nonneg (by omega)]; omega)
      (by norm_num)
    have e : (((a * 4096 + 4095 : ℤ) : ℚ)) / 2 ^ 12 = (a : ℚ) + 4095 / 4096 := by
      push_cast
      ring
    rw [e] at this
    exact this
  have hlo : (a : ℚ) ≤ R.rnd (R.rnd a + R.rnd x) :=
    calc (a : ℚ) = R.rnd a := ea.symm
      _ ≤ R.rnd (R.rnd a + R.rnd x) := R.mono _ _ (by linarith)
  have hhi : R.rnd (R.rnd a + R.rnd x) ≤ (a : ℚ) + 4095 / 4096 :=
    calc R.rnd (R.rnd a + R.rnd x) ≤ R.rnd ((a : ℚ) + 4095 / 4096) :=
          R.mono _ _ (by rw [ea]; linarith)
      _ = (a : ℚ) + 4095 / 4096 := eu
  have hnn : (0 : ℚ) ≤ R.rnd (R.rnd a + R.rnd x) := by
    have : (0 : ℚ) ≤ a := by exact_mod_cast ha0
    linarith
  unfold toInt
  rw [if_pos hnn, Int.floor_eq_iff]
  constructor
  · exact hlo
  · linarith

theorem toInt_Hours (R : Rounding) (s : ℕ) (hs : s * 10 ^ 9 < 2 ^ 63) :
    toInt (Hours R ((s : ℤ) * 1000000000)) = ((s / 3600 : ℕ) : ℤ) := by
  have hq : ((s : ℤ) * 1000000000).tdiv 3600000000000 = ((s / 3600 : ℕ) : ℤ) := by
    rw [Int.tdiv_eq_ediv (by positivity) (by norm_num)]
    omega
  obtain ⟨n, hn, hr⟩ : ∃ n : ℕ, n ≤ 3599 ∧
      ((s : ℤ) * 1000000000).tmod 3600000000000 = (n : ℤ) * 1000000000 := by
    refine ⟨s % 3600, by omega, ?_⟩
    rw [Int.tmod_eq_emod (by positivity) (by norm_num)]
    omega
  unfold Hours
  simp only [hq, hr]
  have en : R.rnd (((n : ℤ) * 1000000000 : ℤ) : ℚ) = (((n : ℤ) * 1000000000 : ℤ) : ℚ) := by
    have := R.exact ((n : ℤ) * 1000000000) 0
      (by rw [abs_of_nonneg (by positivity)]; omega) (by norm_num)
    simpa using this
  rw [en]
  apply toInt_rnd_add
  · positivity
  · omega
  · positivity
  · have h : (n : ℚ) ≤ 3599 := by exact_mod_cast hn
    push_cast
    rw [div_le_iff₀ (by norm_num)]
    linarith

theorem toInt_Minutes (R : Rounding) (s : ℕ) (hs : s * 10 ^ 9 < 2 ^ 63) :
    toInt (Minutes R ((s : ℤ) * 1000000000)) = ((s / 60 : ℕ) : ℤ) := by
  have hq : ((s : ℤ) * 1000000000).tdiv 60000000000 = ((s / 60 : ℕ) : ℤ) := by
    rw [Int.tdiv_eq_ediv (by positivity) (by norm_num)]
    omega
  obtain ⟨n, hn, hr⟩ : ∃ n : ℕ, n ≤ 59 ∧
      ((s : ℤ) * 1000000000).tmod 60000000000 = (n : ℤ) * 1000000000 := by
    refine ⟨s % 60, by omega, ?_⟩
    rw [Int.tmod_eq_emod (by positivity) (by norm_num)]
    omega
  unfold Minutes
  simp only [hq, hr]
  have en : R.rnd (((n : ℤ) * 1000000000 : ℤ) : ℚ) = (((n : ℤ) * 1000000000 : ℤ) : ℚ) := by
    have := R.exact ((n : ℤ) * 1000000000) 0
      (by rw [abs_of_nonneg (by positivity)]; omega) (by norm_num)
    simpa using this
  rw [en]
  apply toInt_rnd_add
  · positivity
  · omega
  · positivity
  · have h : (n : ℚ) ≤ 59 := by exact_mod_cast hn
    push_cast
    rw [div_le_iff₀ (by norm_num)]
    linarith

theorem fmtInt_natCast (n : ℕ) : fmtInt (n : ℤ) = toString n := rfl

theorem formatDuration_seconds (R : Rounding) (s : ℕ) (hs : s * 10 ^ 9 < 2 ^ 63) :
    formatDuration R (uptimeDuration s) =
      toString (s / 86400) ++ " days, " ++ toString (s / 3600 % 24) ++ " hours, " ++
        toString (s / 60 % 60) ++ " minutes" := by
  rw [uptimeDuration_eq s hs]
  unfold formatDuration
  simp only [toInt_Hours R s hs, toInt_Minutes R s hs]
  have h1 : ((s / 3600 : ℕ) : ℤ).tdiv 24 = ((s / 86400 : ℕ) : ℤ) := by
    rw [Int.tdiv_eq_ediv (by positivity) (by norm_num)]
    omega
  have h2 : ((s / 3600 : ℕ) : ℤ).tmod 24 = ((s / 3600 % 24 : ℕ) : ℤ) := by
    rw [Int.tmod_eq_emod (by positivity) (by norm_num)]
    omega
  have h3 : ((s / 60 : ℕ) : ℤ).tmod 60 = ((s / 60 % 60 : ℕ) : ℤ) := by
    rw [Int.tmod_eq_emod (by positivity) (by norm_num)]
    omega
  rw [h1, h2, h3, fmtInt_natCast, fmtInt_natCast, fmtInt_natCast]

/-- C6: for an uptime of `s` whole seconds with `s * 10^9 < 2^63`, the text
of `formatDuration` is "d days, h hours, m minutes" with `d = s / 86400`,
`h = s / 3600 mod 24`, `m = s / 60 mod 60` (integer division), the uptime
section prints it after "Uptime:", and `h < 24`, `m < 60`,
`d*86400 + h*3600 + m*60 <= s < d*86400 + h*3600 + m*60 + 60`. -/
theorem C6_uptime_format (L : Lib) (logging : Bool) (s : ℕ) (hs : s * 10 ^ 9 < 2 ^ 63) :
    formatDuration L.round (uptimeDuration s) =
      toString (s / 86400) ++ " days, " ++ toString (s / 3600 % 24) ++ " hours, " ++
        toString (s / 60 % 60) ++ " minutes" ∧
    (∀ smp : Sample, smp.uptime = Except.ok s →
      termOf (uptimeSection L logging smp) = sectionWrites "=== Uptime ==="
        [⟨none, "⏱️  Uptime: " ++ (toString (s / 86400) ++ " days, " ++
          toString (s / 3600 % 24) ++ " hours, " ++ toString (s / 60 % 60) ++ " minutes") ++
          "\n"⟩]) ∧
    s / 3600 % 24 < 24 ∧ s / 60 % 60 < 60 ∧
    s / 86400 * 86400 + s / 3600 % 24 * 3600 + s / 60 % 60 * 60 ≤ s ∧
    s < s / 86400 * 86400 + s / 3600 % 24 * 3600 + s / 60 % 60 * 60 + 60 := by
  refine ⟨formatDuration_seconds L.round s hs, ?_, by omega, by omega, by omega, by omega⟩
  intro smp h
  simp [uptimeSection, sectionWrites, h, formatDuration_seconds L.round s hs]

theorem C6_uptime_format_witness :
    formatDuration exampleLib.round (uptimeDuration 90061) = "1 days, 1 hours, 1 minutes" :=
  (C6_uptime_format exampleLib false 90061 (by norm_num)).1.trans (by decide)

/-! ## The refresh loop -/

theorem defaultToAll_of_selected (f : Flags) (h : f.noneSelected = false) :
    defaultToAll f = f := by
  simp [defaultToAll, h]

/-- A run that stands at the loop entry when no pass is allowed has passed
validation with `--version` unset, and `main` is the refresh loop from
there, with the log file open iff `--log` was given. -/
theorem main_reaches_loop (L : Lib) (E : Env) (osArgs : List String) (f : Flags)
    (hreach : (main L E osArgs f 0).status = Status.running) :
    f.noneSelected = false ∧ f.showVersion = false ∧
    ∀ fuel, main L E osArgs f fuel = refreshLoop L E (decide (f.logPath ≠ "")) fuel 0 f 0 := by
  have hlogged : ∀ lg : Bool, (mainLogged L E lg osArgs f 0).status = Status.running →
      f.noneSelected = false ∧ f.showVersion = false ∧
      ∀ fuel, mainLogged L E lg osArgs f fuel = refreshLoop L E lg fuel 0 f 0 := by
    intro lg h
    by_cases h1 : isVersionInvocation osArgs = true
    · simp [mainLogged, h1] at h
    by_cases h2 : (decide (f.refresh > 0) && !f.showCPU && !f.showMem && !f.showNet &&
        !f.showDisk && !f.showAll) = true
    · simp only [mainLogged, if_neg h1, if_pos h2] at h
      simp at h
    by_cases h3 : (!f.showCPU && !f.showMem && !f.showNet && !f.showDisk && !f.showAll) = true
    · simp only [mainLogged, if_neg h1, if_neg h2, if_pos h3] at h
      simp at h
    by_cases h4 : f.showVersion = true
    · simp only [mainLogged, mainValidated, if_neg h1, if_neg h2, if_neg h3, if_pos h4] at h
      simp at h
    refine ⟨by simpa [Flags.noneSelected] using h3, by simpa using h4, fun fuel => ?_⟩
    simp only [mainLogged, mainValidated, if_neg h1, if_neg h2, if_neg h3, if_neg h4]
  by_cases h1 : isHelpInvocation osArgs = true
  · by_cases h2 : f.logPath = ""
    · simp [main, h1, h2] at hreach
    · cases hopen : E.openFile f.logPath <;> simp [main, h1, h2, hopen] at hreach
  · by_cases h2 : f.logPath = ""
    · have hm : ∀ fuel, main L E osArgs f fuel = mainLogged L E false osArgs f fuel := by
        intro fuel
        simp [main, h1, h2]
      rw [hm] at hreach
      obtain ⟨a, b, c⟩ := hlogged false hreach
      refine ⟨a, b, fun fuel => ?_⟩
      rw [hm, c fuel]
      simp [h2]
    · cases hopen : E.openFile f.logPath with
      | error e => simp [main, h1, h2, hopen] at hreach
      | ok u =>
        have hm : ∀ fuel, main L E osArgs f fuel = mainLogged L E true osArgs f fuel := by
          intro fuel
          simp [main, h1, h2, hopen]
        rw [hm] at hreach
        obtain ⟨a, b, c⟩ := hlogged true hreach
        refine ⟨a, b, fun fuel => ?_⟩
        rw [hm, c fuel]
        simp [h2]

theorem refreshLoop_single (L : Lib) (E : Env) (lg : Bool) (f : Flags) (fuel i : ℕ) (rc : ℤ)
    (hsel : f.noneSelected = false) (hr : f.refresh ≤ 0) :
    refreshLoop L E lg (fuel + 1) i f rc =
      ⟨cycleBody L lg f (E.samples i) ++
        logPrintln lg "👋 Exiting SysPeek. Thanks for monitoring with us!" ++
        logOutput lg ("⏱️  Total runtime: " ++ E.runtime ++ "\n") ++
        logOutput lg ("🔁 Total refreshes: " ++ fmtInt (rc + 1) ++ "\n"),
       Status.returned, rc + 1⟩ := by
  simp [refreshLoop, defaultToAll_of_selected f hsel, hr]

theorem refreshLoop_running (L : Lib) (E : Env) (lg : Bool) (f : Flags)
    (hsel : f.noneSelected = false) (hr : 0 < f.refresh) :
    ∀ (fuel i : ℕ) (rc : ℤ),
      (refreshLoop L E lg fuel i f rc).status = Status.running ∧
      (refreshLoop L E lg fuel i f rc).out =
        (List.range fuel).flatMap (fun j => cycleBody L lg f (E.samples (i + j))) := by
  intro fuel
  induction fuel with
  | zero => intro i rc; simp [refreshLoop]
  | succ n ih =>
    intro i rc
    have hr2 : ¬ f.refresh ≤ 0 := not_le.mpr hr
    obtain ⟨h1, h2⟩ := ih (i + 1) (rc + 1)
    simp only [refreshLoop, defaultToAll_of_selected f hsel, if_neg hr2]
    refine ⟨h1, ?_⟩
    rw [h2, List.range_succ_eq_map, List.flatMap_cons, List.flatMap_map]
    simp [Nat.add_assoc, Nat.add_comm 1]

theorem refreshLoop_count (L : Lib) (E : Env) (lg : Bool) (f : Flags)
    (hsel : f.noneSelected = false) (hr : 0 < f.refresh) :
    ∀ (fuel i : ℕ) (rc : ℤ),
      (refreshLoop L E lg fuel i f rc).refreshCount = rc + fuel := by
  intro fuel
  induction fuel with
  | zero => intro i rc; simp [refreshLoop]
  | succ n ih =>
    intro i rc
    have hr2 : ¬ f.refresh ≤ 0 := not_le.mpr hr
    simp only [refreshLoop, defaultToAll_of_selected f hsel, if_neg hr2]
    rw [ih (i + 1) (rc + 1)]
    push_cast
    ring

/-- C5, as the code has it: for a configuration that reached the loop
(validation passed and `--version` is not set), with `--refresh` unset or
`<= 0` the loop makes exactly one pass and `main` returns with refresh count
1, which the summary reports; with `--refresh > 0`, after `k` passes the run
is still in the loop, has written exactly those `k` passes, and the refresh
count is `k`. -/
theorem C5_refresh_count (L : Lib) (E : Env) (osArgs : List String) (f : Flags)
    (hreach : (main L E osArgs f 0).status = Status.running) :
    (f.refresh ≤ 0 → ∀ fuel, 0 < fuel →
      (main L E osArgs f fuel).status = Status.returned ∧
      (main L E osArgs f fuel).refreshCount = 1 ∧
      (main L E osArgs f fuel).out =
        cycleBody L (decide (f.logPath ≠ "")) f (E.samples 0) ++
        logPrintln (decide (f.logPath ≠ ""))
          "👋 Exiting SysPeek. Thanks for monitoring with us!" ++
        logOutput (decide (f.logPath ≠ "")) ("⏱️  Total runtime: " ++ E.runtime ++ "\n") ++
        logOutput (decide (f.logPath ≠ "")) "🔁 Total refreshes: 1\n") ∧
    (0 < f.refresh → ∀ k : ℕ,
      (main L E osArgs f k).status = Status.running ∧
      (main L E osArgs f k).out =
        (List.range k).flatMap
          (fun j => cycleBody L (decide (f.logPath ≠ "")) f (E.samples j)) ∧
      (main L E osArgs f k).refreshCount = k) := by
  obtain ⟨hsel, _, hmain⟩ := main_reaches_loop L E osArgs f hreach
  constructor
  · intro hr fuel hfuel
    obtain ⟨n, rfl⟩ : ∃ n, fuel = n + 1 := ⟨fuel - 1, by omega⟩
    rw [hmain, refreshLoop_single L E _ f n 0 0 hsel hr]
    have h2 : fmtInt (0 + 1) = "1" := by decide
    refine ⟨rfl, by norm_num, ?_⟩
    simp only [h2]
    rfl
  · intro hr k
    rw [hmain]
    obtain ⟨h1, h2⟩ := refreshLoop_running L E (decide (f.logPath ≠ "")) f hsel hr k 0 0
    refine ⟨h1, ?_, ?_⟩
    · simpa using h2
    · simpa using refreshLoop_count L E (decide (f.logPath ≠ "")) f hsel hr k 0 0

theorem C5_refresh_count_witness :
    ((main exampleLib exampleEnv ["syspeek", "--cpu"] cpuOnly 1).status = Status.returned ∧
      (main exampleLib exampleEnv ["syspeek", "--cpu"] cpuOnly 1).refreshCount = 1) ∧
    ((main exampleLib exampleEnv ["syspeek", "--cpu", "--refresh=2"]
        cpuEveryTwoSeconds 3).status = Status.running ∧
      (main exampleLib exampleEnv ["syspeek", "--cpu", "--refresh=2"]
        cpuEveryTwoSeconds 3).refreshCount = 3) := by
  have h1 := (C5_refresh_count exampleLib exampleEnv ["syspeek", "--cpu"] cpuOnly
    (by decide)).1 (by decide) 1 (by decide)
  have h2 := (C5_refresh_count exampleLib exampleEnv ["syspeek", "--cpu", "--refresh=2"]
    cpuEveryTwoSeconds (by decide)).2 (by decide) 3
  exact ⟨⟨h1.1, h1.2.1⟩, ⟨h2.1, h2.2.2⟩⟩

/-- The run of `syspeek --cpu --version`: the flags pass validation and
`--refresh` is unset, yet `main` writes the version line and returns; the
loop makes no pass and the refresh count is 0. -/
theorem C5_version_skips_loop :
    cpuVersion.noneSelected = false ∧ cpuVersion.refresh ≤ 0 ∧
    main exampleLib exampleEnv ["syspeek", "--cpu", "--version"] cpuVersion 1 =
      ⟨[Ev.term none "SysPeek version 1.0.0\n"], Status.returned, 0⟩ := by
  refine ⟨rfl, by decide, rfl⟩

/-! ## Validation -/

/-- C2, as the code has it: when no category flag and no `--all` is set, and
the invocation is not the lone `--help`, `-h` or `--version`, `main` exits
with code 1 before the loop; it has written only the "Refresh is set ..."
message (`--refresh > 0`) or the "Please specify ..." message (otherwise)
when no log file was asked for or the log file opened, and only the
"Could not open log file" message when the log file could not be opened.
Every run that reaches the loop has a category flag or `--all` set, and the
loop's fallback leaves its flags as they are. -/
theorem C2_no_category_exits (L : Lib) (E : Env) (osArgs : List String) (f : Flags)
    (fuel : ℕ) (hnone : f.noneSelected = true)
    (hhelp : isHelpInvocation osArgs = false) (hver : isVersionInvocation osArgs = false) :
    (main L E osArgs f fuel).status = Status.exited 1 ∧
    ((f.logPath = "" ∨ ∃ u, E.openFile f.logPath = Except.ok u) →
      (main L E osArgs f fuel).out = logPrintln (decide (f.logPath ≠ ""))
        (if 0 < f.refresh then
          "⚠️ Error: Refresh is set but no data flags selected. Use --all or individual flags."
        else
          "⚠️ Error: Please specify at least one of --cpu, --mem, --net, --disk, or --all")) ∧
    (∀ err, f.logPath ≠ "" → E.openFile f.logPath = Except.error err →
      (main L E osArgs f fuel).out = fmtPrintln ("⚠️ Could not open log file: " ++ err)) ∧
    (∀ (args : List String) (g : Flags), (main L E args g 0).status = Status.running →
      (g.showCPU = true ∨ g.showMem = true ∨ g.showNet = true ∨ g.showDisk = true ∨
        g.showAll = true) ∧ defaultToAll g = g) := by
  have hflags : f.showCPU = false ∧ f.showMem = false ∧ f.showNet = false ∧
      f.showDisk = false ∧ f.showAll = false := by
    simpa [Flags.noneSelected, and_assoc] using hnone
  obtain ⟨c1, c2, c3, c4, c5⟩ := hflags
  have hlogged : ∀ lg : Bool,
      (mainLogged L E lg osArgs f fuel).status = Status.exited 1 ∧
      (mainLogged L E lg osArgs f fuel).out = logPrintln lg
        (if 0 < f.refresh then
          "⚠️ Error: Refresh is set but no data flags selected. Use --all or individual flags."
        else
          "⚠️ Error: Please specify at least one of --cpu, --mem, --net, --disk, or --all") := by
    intro lg
    by_cases hr : 0 < f.refresh <;> simp [mainLogged, hver, hr, c1, c2, c3, c4, c5]
  refine ⟨?_, ?_, ?_, ?_⟩
  · by_cases h2 : f.logPath = ""
    · simpa [main, hhelp, h2] using (hlogged false).1
    · cases hopen : E.openFile f.logPath with
      | error e => simp [main, hhelp, h2, hopen]
      | ok u => simpa [main, hhelp, h2, hopen] using (hlogged true).1
  · intro hlog
    by_cases h2 : f.logPath = ""
    · simpa [main, hhelp, h2] using (hlogged false).2
    · rcases hlog with hlog | ⟨u, hopen⟩
      · exact absurd hlog h2
      · simpa [main, hhelp, h2, hopen] using (hlogged true).2
  · intro err h2 hopen
    simp [main, hhelp, h2, hopen]
  · intro args g hg
    obtain ⟨hsel, _, _⟩ := main_reaches_loop L E args g hg
    refine ⟨?_, defaultToAll_of_selected g hsel⟩
    obtain ⟨cpu, mem, net, all, refresh, ver, log, disk⟩ := g
    cases cpu <;> cases mem <;> cases net <;> cases all <;> cases disk <;>
      simp [Flags.noneSelected] at hsel ⊢

theorem C2_no_category_exits_witness :
    (main exampleLib exampleEnv ["syspeek", "--refresh=5"]
      { Flags.default with refresh := 5 } 1).status = Status.exited 1 ∧
    (main exampleLib exampleEnv ["syspeek", "--refresh=5"]
      { Flags.default with refresh := 5 } 1).out =
      [Ev.term none
        "⚠️ Error: Refresh is set but no data flags selected. Use --all or individual flags.\n"] := by
  have h := C2_no_category_exits exampleLib exampleEnv ["syspeek", "--refresh=5"]
    { Flags.default with refresh := 5 } 1 (by decide) (by decide) (by decide)
  exact ⟨h.1, (h.2.1 (Or.inl rfl)).trans (by decide)⟩

/-- The run of `syspeek --log=/nonexistent/syspeek.log` when the log file
cannot be opened: no category flag is set and the invocation is not a lone
`--help`, `-h` or `--version`; `main` exits with code 1 having written the
"Could not open log file" message and neither validation message. -/
theorem C2_log_open_failure :
    logOnly.noneSelected = true ∧
    (main exampleLib noLogEnv ["syspeek", "--log=/nonexistent/syspeek.log"] logOnly 1).status =
      Status.exited 1 ∧
    (main exampleLib noLogEnv ["syspeek", "--log=/nonexistent/syspeek.log"] logOnly 1).out =
      [Ev.term none ("⚠️ Could not open log file: " ++
        "open /nonexistent/syspeek.log: no such file or directory\n")] ∧
    Ev.term none
        "⚠️ Error: Please specify at least one of --cpu, --mem, --net, --disk, or --all\n" ∉
      (main exampleLib noLogEnv ["syspeek", "--log=/nonexistent/syspeek.log"] logOnly 1).out := by
  decide

/-! ## The version flag -/

/-- C9 at its failing inputs: `syspeek -version` sets the version flag, and
`main` writes the "Please specify ..." message and exits with code 1;
`syspeek --version --refresh=5` sets it too, and `main` writes the
"Refresh is set ..." message and exits with code 1. -/
theorem C9_version_flag_rejected :
    versionOnly.showVersion = true ∧
    main exampleLib exampleEnv ["syspeek", "-version"] versionOnly 1 =
      ⟨[Ev.term none
        "⚠️ Error: Please specify at least one of --cpu, --mem, --net, --disk, or --all\n"],
        Status.exited 1, 0⟩ ∧
    versionRefresh.showVersion = true ∧
    main exampleLib exampleEnv ["syspeek", "--version", "--refresh=5"] versionRefresh 1 =
      ⟨[Ev.term none
        "⚠️ Error: Refresh is set but no data flags selected. Use --all or individual flags.\n"],
        Status.exited 1, 0⟩ := by
  refine ⟨rfl, ?_, rfl, ?_⟩ <;> rfl

/-! ## Terminal and log file -/

/-- C3 at its failing input: in the run of `syspeek --net --log=syspeek.log`
the terminal gets the section header "=== Network I/O ===", and the log file
gets "=== Network Usage ===" in its place; the terminal's header text is not
written to the file. -/
theorem C3_network_header_differs :
    (termOf (main exampleLib exampleEnv ["syspeek", "--net", "--log=syspeek.log"]
        netLogged 1).out).filter isHeaderWrite =
      [⟨some Colour.cyan, "=== System Info ===\n"⟩, ⟨some Colour.cyan, "=== Network I/O ===\n"⟩] ∧
    fileOf (main exampleLib exampleEnv ["syspeek", "--net", "--log=syspeek.log"]
        netLogged 1).out =
      ["\x1b[H\x1b[2J\n",
       "🔧 Your Lightweight System Monitor\n",
       "\n",
       "=== System Info ===\n",
       "🧠 Hostname: host\n",
       "🧬 OS: ubuntu 22.04\n",
       "🧱 Architecture: x86_64\n",
       "🧩 Kernel Version: 5.15.0\n",
       "\n",
       "\n",
       "=== Network Usage ===\n",
       "🌐 Network: Sent 1.00 MB | Received 2.00 MB\n",
       "\n",
       "👋 Exiting SysPeek. Thanks for monitoring with us!\n",
       "⏱️  Total runtime: 0s\n",
       "🔁 Total refreshes: 1\n"] ∧
    "=== Network I/O ===\n" ∉
      fileOf (main exampleLib exampleEnv ["syspeek", "--net", "--log=syspeek.log"]
        netLogged 1).out := by
  decide!

/-! ## Content of the log file -/

theorem fileOf_systemInfoSection (s : Sample) :
    ∀ w ∈ fileOf (systemInfoSection true s),
      w = "\n" ∨ w = "=== System Info ===\n" ∨ w ∈ infoLines s := by
  intro w hw
  cases h : s.info <;>
    simp [systemInfoSection, printSystemInfo, infoLines, h] at hw ⊢ <;> tauto

theorem fileOf_uptimeSection (L : Lib) (s : Sample) :
    ∀ w ∈ fileOf (uptimeSection L true s),
      w = "\n" ∨ w = "=== Uptime ===\n" ∨ w ∈ uptimeLines L s := by
  intro w hw
  cases h : s.uptime <;> simp [uptimeSection, uptimeLines, h] at hw ⊢ <;> tauto

theorem fileOf_memorySection (L : Lib) (s : Sample) :
    ∀ w ∈ fileOf (memorySection L true s),
      w = "\n" ∨ w = "=== Memory Usage ===\n" ∨ w ∈ memoryLines L s := by
  intro w hw
  cases h : s.virtualMemory <;>
    simp [memorySection, memoryLines, printMemoryUsage, h] at hw ⊢ <;> tauto

theorem fileOf_cpuSection (L : Lib) (s : Sample) :
    ∀ w ∈ fileOf (cpuSection L true s),
      w = "\n" ∨ w = "=== CPU Usage ===\n" ∨ w ∈ cpuLines L s := by
  intro w hw
  cases h : s.cpuPercent with
  | error e => simp [cpuSection, cpuLines, h] at hw ⊢; tauto
  | ok ps =>
    cases ps <;> simp [cpuSection, cpuLines, printCPUUsage, h] at hw ⊢ <;> tauto

theorem fileOf_diskSection (L : Lib) (s : Sample) :
    ∀ w ∈ fileOf (diskSection L true s),
      w = "\n" ∨ w = "=== Disk Usage ===\n" ∨ w ∈ diskLines L s := by
  intro w hw
  cases h : s.partitions <;>
    simp [diskSection, diskLines, printDiskUsage, fileOf_diskLoop, h] at hw ⊢ <;> tauto

theorem fileOf_networkSection (L : Lib) (s : Sample) :
    ∀ w ∈ fileOf (networkSection L true s),
      w = "\n" ∨ w = "=== Network Usage ===\n" ∨ w ∈ networkLines L s := by
  intro w hw
  cases h : s.counters with
  | error e => simp [networkSection, networkLines, h] at hw ⊢; tauto
  | ok cs =>
    cases cs <;> simp [networkSection, networkLines, h] at hw ⊢ <;> tauto

theorem fileOf_cycleSections (L : Lib) (f : Flags) (s : Sample) :
    ∀ w ∈ fileOf (cycleSections L true f s),
      w = "\n" ∨ w ∈ logHeaders f ∨ w ∈ dataLines L f s := by
  intro w hw
  simp only [cycleSections, fileOf_append, List.mem_append] at hw
  rcases hw with ((((hw | hw) | hw) | hw) | hw) | hw
  · by_cases c : (f.showAll || f.showCPU || f.showMem || f.showNet || f.showDisk) = true
    · rw [if_pos c] at hw
      rcases fileOf_systemInfoSection s w hw with h | h | h
      · exact Or.inl h
      · exact Or.inr (Or.inl (by simp [logHeaders, c, h]))
      · exact Or.inr (Or.inr (by simp [dataLines, c, h]))
    · rw [if_neg c] at hw
      simp [fileOf] at hw
  · by_cases c : f.showAll = true
    · rw [if_pos c] at hw
      rcases fileOf_uptimeSection L s w hw with h | h | h
      · exact Or.inl h
      · exact Or.inr (Or.inl (by simp [logHeaders, c, h]))
      · exact Or.inr (Or.inr (by simp [dataLines, c, h]))
    · rw [if_neg c] at hw
      simp [fileOf] at hw
  · by_cases c : (f.showAll || f.showMem) = true
    · rw [if_pos c] at hw
      rcases fileOf_memorySection L s w hw with h | h | h
      · exact Or.inl h
      · exact Or.inr (Or.inl (by simp [logHeaders, c, h]))
      · exact Or.inr (Or.inr (by simp [dataLines, c, h]))
    · rw [if_neg c] at hw
      simp [fileOf] at hw
  · by_cases c : (f.showAll || f.showCPU) = true
    · rw [if_pos c] at hw
      rcases fileOf_cpuSection L s w hw with h | h | h
      · exact Or.inl h
      · exact Or.inr (Or.inl (by simp [logHeaders, c, h]))
      · exact Or.inr (Or.inr (by simp [dataLines, c, h]))
    · rw [if_neg c] at hw
      simp [fileOf] at hw
  · by_cases c : (f.showAll || f.showDisk) = true
    · rw [if_pos c] at hw
      rcases fileOf_diskSection L s w hw with h | h | h
      · exact Or.inl h
      · exact Or.inr (Or.inl (by simp [logHeaders, c, h]))
      · exact Or.inr (Or.inr (by simp [dataLines, c, h]))
    · rw [if_neg c] at hw
      simp [fileOf] at hw
  · by_cases c : (f.showAll || f.showNet) = true
    · rw [if_pos c] at hw
      rcases fileOf_networkSection L s w hw with h | h | h
      · exact Or.inl h
      · exact Or.inr (Or.inl (by simp [logHeaders, c, h]))
      · exact Or.inr (Or.inr (by simp [dataLines, c, h]))
    · rw [if_neg c] at hw
      simp [fileOf] at hw

theorem fileOf_cycleBody (L : Lib) (f : Flags) (s : Sample) (hsel : f.noneSelected = false) :
    fileOf (cycleBody L true f s) =
      "\x1b[H\x1b[2J\n" :: "🔧 Your Lightweight System Monitor\n" :: "\n" ::
        fileOf (cycleSections L true f s) := by
  have h : ensureNewline "\x1b[H\x1b[2J" = "\x1b[H\x1b[2J\n" := by decide
  simp [cycleBody, cycleHead, defaultToAll_of_selected f hsel, fileOf_bannerRows, h]

theorem escapeFree_append (a b : String) :
    escapeFree (a ++ b) ↔ escapeFree a ∧ escapeFree b := by
  simp [escapeFree, String.data_append, not_or]

theorem digitChar_ne_esc : ∀ n : ℕ, n < 10 → Nat.digitChar n ≠ '\x1b' := by
  decide

theorem toDigitsCore_escapeFree :
    ∀ (fuel n : ℕ) (ds : List Char), '\x1b' ∉ ds → '\x1b' ∉ Nat.toDigitsCore 10 fuel n ds := by
  intro fuel
  induction fuel with
  | zero => intro n ds h; simpa [Nat.toDigitsCore] using h
  | succ k ih =>
    intro n ds h
    have hd : '\x1b' ∉ Nat.digitChar (n % 10) :: ds := by
      simp only [List.mem_cons, not_or]
      exact ⟨fun e => digitChar_ne_esc _ (Nat.mod_lt _ (by norm_num)) e.symm, h⟩
    simp only [Nat.toDigitsCore]
    split_ifs
    · exact hd
    · exact ih _ _ hd

theorem escapeFree_natToString (n : ℕ) : escapeFree (toString n) := by
  show '\x1b' ∉ (Nat.repr n).data
  simp only [Nat.repr, Nat.toDigits, List.asString]
  exact toDigitsCore_escapeFree _ _ _ (by simp)

theorem escapeFree_fmtInt (n : ℤ) : escapeFree (fmtInt n) := by
  cases n with
  | ofNat m => exact escapeFree_natToString m
  | negSucc m =>
    show escapeFree ("-" ++ toString (m + 1))
    rw [escapeFree_append]
    exact ⟨by decide, escapeFree_natToString _⟩

theorem escapeFree_formatDuration (R : Rounding) (d : ℤ) : escapeFree (formatDuration R d) := by
  unfold formatDuration
  simp only [escapeFree_append, escapeFree_fmtInt, true_and, and_true]
  decide

theorem logHeaders_escapeFree (f : Flags) : ∀ w ∈ logHeaders f, escapeFree w := by
  intro w hw
  simp only [logHeaders, List.mem_append] at hw
  rcases hw with ((((hw | hw) | hw) | hw) | hw) | hw <;>
    (split_ifs at hw <;> simp at hw; subst hw; decide)

theorem infoLines_escapeFree (s : Sample) (hs : s.escapeFree) :
    ∀ w ∈ infoLines s, escapeFree w := by
  intro w hw
  have h := hs.1
  cases hi : s.info with
  | error e =>
    simp only [hi] at h
    simp only [infoLines, hi, List.mem_singleton] at hw
    subst hw
    simp only [escapeFree_append, h, and_true, true_and]
    decide
  | ok i =>
    simp only [hi] at h
    obtain ⟨h1, h2, h3, h4, h5⟩ := h
    simp only [infoLines, hi, List.mem_cons, List.mem_singleton, List.not_mem_nil,
      or_false] at hw
    rcases hw with rfl | rfl | rfl | rfl <;>
      simp only [escapeFree_append, h1, h2, h3, h4, h5, and_true, true_and] <;>
      decide

theorem uptimeLines_escapeFree (L : Lib) (s : Sample) (hs : s.escapeFree) :
    ∀ w ∈ uptimeLines L s, escapeFree w := by
  intro w hw
  cases hu : s.uptime with
  | error e =>
    simp only [uptimeLines, hu, List.mem_singleton] at hw
    subst hw
    simp only [escapeFree_append, hs.2.1 e hu, and_true, true_and]
    decide
  | ok u =>
    simp only [uptimeLines, hu, List.mem_singleton] at hw
    subst hw
    simp only [escapeFree_append, escapeFree_formatDuration, and_true, true_and]
    decide

theorem memoryLines_escapeFree (L : Lib) (s : Sample) (hL : L.escapeFree)
    (hs : s.escapeFree) : ∀ w ∈ memoryLines L s, escapeFree w := by
  intro w hw
  cases hu : s.virtualMemory with
  | error e =>
    simp only [memoryLines, hu, List.mem_singleton] at hw
    subst hw
    simp only [escapeFree_append, hs.2.2.1 e hu, and_true, true_and]
    decide
  | ok v =>
    simp only [memoryLines, hu, List.mem_singleton] at hw
    subst hw
    simp only [escapeFree_append, hL _, and_true, true_and]
    decide

theorem cpuLines_escapeFree (L : Lib) (s : Sample) (hL : L.escapeFree)
    (hs : s.escapeFree) : ∀ w ∈ cpuLines L s, escapeFree w := by
  intro w hw
  cases hu : s.cpuPercent with
  | error e =>
    simp only [cpuLines, hu, List.mem_singleton] at hw
    subst hw
    simp only [escapeFree_append, hs.2.2.2.1 e hu, and_true, true_and]
    decide
  | ok ps =>
    cases ps with
    | nil => simp [cpuLines, hu] at hw
    | cons p ps =>
      simp only [cpuLines, hu, List.mem_singleton] at hw
      subst hw
      simp only [escapeFree_append, hL _, and_true, true_and]
      decide

theorem diskLines_escapeFree (L : Lib) (s : Sample) (hL : L.escapeFree)
    (hs : s.escapeFree) : ∀ w ∈ diskLines L s, escapeFree w := by
  intro w hw
  have h := hs.2.2.2.2.1
  cases hu : s.partitions with
  | error e =>
    simp only [hu] at h
    simp only [diskLines, hu, List.mem_singleton] at hw
    subst hw
    simp only [escapeFree_append, h, and_true, true_and]
    decide
  | ok ps =>
    simp only [hu] at h
    simp only [diskLines, hu, List.mem_map] at hw
    obtain ⟨u, hmem, rfl⟩ := hw
    simp only [diskLine, escapeFree_append, hL _, h u hmem, and_true, true_and]
    decide

theorem networkLines_escapeFree (L : Lib) (s : Sample) (hL : L.escapeFree)
    (hs : s.escapeFree) : ∀ w ∈ networkLines L s, escapeFree w := by
  intro w hw
  cases hu : s.counters with
  | error e =>
    simp only [networkLines, hu, List.mem_singleton] at hw
    subst hw
    simp only [escapeFree_append, hs.2.2.2.2.2 e hu, and_true, true_and]
    decide
  | ok cs =>
    cases cs with
    | nil => simp [networkLines, hu] at hw
    | cons c cs =>
      simp only [networkLines, hu, List.mem_singleton] at hw
      subst hw
      simp only [escapeFree_append, hL _, and_true, true_and]
      decide

theorem dataLines_escapeFree (L : Lib) (f : Flags) (s : Sample) (hL : L.escapeFree)
    (hs : s.escapeFree) : ∀ w ∈ dataLines L f s, escapeFree w := by
  intro w hw
  simp only [dataLines, List.mem_append] at hw
  rcases hw with ((((hw | hw) | hw) | hw) | hw) | hw <;> split_ifs at hw <;>
    first
    | exact absurd hw (List.not_mem_nil _)
    | exact infoLines_escapeFree s hs w hw
    | exact uptimeLines_escapeFree L s hs w hw
    | exact memoryLines_escapeFree L s hL hs w hw
    | exact cpuLines_escapeFree L s hL hs w hw
    | exact diskLines_escapeFree L s hL hs w hw
    | exact networkLines_escapeFree L s hL hs w hw

theorem cycleBody_log_lines (L : Lib) (f : Flags) (s : Sample) (hsel : f.noneSelected = false) :
    ∀ w ∈ (fileOf (cycleBody L true f s)).tail,
      w = "🔧 Your Lightweight System Monitor\n" ∨ w = "\n" ∨ w ∈ logHeaders f ∨
        w ∈ dataLines L f s := by
  intro w hw
  rw [fileOf_cycleBody L f s hsel] at hw
  simp only [List.tail_cons, List.mem_cons] at hw
  rcases hw with h | h | h
  · exact Or.inl h
  · exact Or.inr (Or.inl h)
  · exact Or.inr (fileOf_cycleSections L f s w h)

/-- C10, as the code has it: with a log file open, every write to the log
file in a refresh cycle of a configuration that reached the loop, after the
cycle's first write, is the subtitle line, a blank line, or a section header,
data line or error line of a selected section; and when the texts of the
providers and of verb `%.2f` hold no escape character, none of these writes
holds one. -/
theorem C10_log_lines (L : Lib) (f : Flags) (s : Sample) (hsel : f.noneSelected = false) :
    (∀ w ∈ (fileOf (cycleBody L true f s)).tail,
      w = "🔧 Your Lightweight System Monitor\n" ∨ w = "\n" ∨ w ∈ logHeaders f ∨
        w ∈ dataLines L f s) ∧
    (L.escapeFree → s.escapeFree →
      ∀ w ∈ (fileOf (cycleBody L true f s)).tail, escapeFree w) := by
  refine ⟨cycleBody_log_lines L f s hsel, fun hL hs w hw => ?_⟩
  rcases cycleBody_log_lines L f s hsel w hw with h | h | h | h
  · subst h; decide
  · subst h; decide
  · exact logHeaders_escapeFree f w h
  · exact dataLines_escapeFree L f s hL hs w h

theorem exampleLib_escapeFree : exampleLib.escapeFree := by
  intro x
  cases x with
  | nan => decide
  | negInf => decide
  | posInf => decide
  | fin q =>
    show escapeFree (fmt2 (F64.fin q))
    simp only [fmt2, escapeFree_append]
    refine ⟨⟨⟨⟨?_, ?_⟩, ?_⟩, ?_⟩, ?_⟩
    · split_ifs <;> decide
    · exact escapeFree_fmtInt _
    · decide
    · split_ifs <;> decide
    · exact escapeFree_fmtInt _

theorem emptyCpuSample_escapeFree : emptyCpuSample.escapeFree := by
  refine ⟨?_, ?_, ?_, ?_, ?_, ?_⟩
  · show escapeFree "host" ∧ escapeFree "ubuntu" ∧ escapeFree "22.04" ∧ escapeFree "x86_64" ∧
      escapeFree "5.15.0"
    decide
  · intro e h; simp [emptyCpuSample, exampleSample] at h
  · intro e h; simp [emptyCpuSample, exampleSample] at h
  · intro e h; simp [emptyCpuSample, exampleSample] at h
  · show ∀ u ∈ successes _, escapeFree u.path
    intro u hu
    simp [successes] at hu
    subst hu
    decide
  · intro e h; simp [emptyCpuSample, exampleSample] at h

theorem C10_log_lines_witness :
    ("=== CPU Usage ===\n" = "🔧 Your Lightweight System Monitor\n" ∨
      "=== CPU Usage ===\n" = "\n" ∨ "=== CPU Usage ===\n" ∈ logHeaders cpuLogged ∨
      "=== CPU Usage ===\n" ∈ dataLines exampleLib cpuLogged emptyCpuSample) ∧
    escapeFree "=== CPU Usage ===\n" :=
  ⟨(C10_log_lines exampleLib cpuLogged emptyCpuSample (by decide)).1 _ (by decide),
    (C10_log_lines exampleLib cpuLogged emptyCpuSample (by decide)).2
      exampleLib_escapeFree emptyCpuSample_escapeFree _ (by decide)⟩

/-- The cycle of `syspeek --cpu --log=syspeek.log`: the log file gets the
screen-clear escape sequence and the subtitle line, which is no section
header and no data line of the configuration. -/
theorem C10_log_holds_more :
    fileOf (cycleBody exampleLib true cpuLogged exampleSample) =
      ["\x1b[H\x1b[2J\n",
       "🔧 Your Lightweight System Monitor\n",
       "\n",
       "=== System Info ===\n",
       "🧠 Hostname: host\n",
       "🧬 OS: ubuntu 22.04\n",
       "🧱 Architecture: x86_64\n",
       "🧩 Kernel Version: 5.15.0\n",
       "\n",
       "\n",
       "=== CPU Usage ===\n",
       "⚙️  CPU Usage: 12.00%\n",
       "\n"] ∧
    ¬ escapeFree "\x1b[H\x1b[2J\n" ∧
    "🔧 Your Lightweight System Monitor\n" ∉ logHeaders cpuLogged ∧
    "🔧 Your Lightweight System Monitor\n" ∉ dataLines exampleLib cpuLogged exampleSample := by
  decide!

/-! ## Agreement of terminal and log file -/

theorem logText_plain (s : String) : logText ⟨none, s⟩ = s := by
  simp [logText]

theorem logText_diskLine (L : Lib) (u : UsageStat) :
    logText (diskLine L u) = (diskLine L u).text := by
  have h := diskLine_not_header L u
  unfold logText
  rw [if_neg]
  intro e
  rw [e] at h
  simp [isHeaderWrite] at h

theorem systemInfoSection_logged (s : Sample) :
    fileOf (systemInfoSection true s) = (termOf (systemInfoSection true s)).map logText := by
  cases h : s.info <;> simp [systemInfoSection, printSystemInfo, logText, h]

theorem uptimeSection_logged (L : Lib) (s : Sample) :
    fileOf (uptimeSection L true s) = (termOf (uptimeSection L true s)).map logText := by
  cases h : s.uptime <;> simp [uptimeSection, logText, h]

theorem memorySection_logged (L : Lib) (s : Sample) :
    fileOf (memorySection L true s) = (termOf (memorySection L true s)).map logText := by
  cases h : s.virtualMemory with
  | error e => simp [memorySection, logText, h]
  | ok v =>
    simp only [memorySection, h, printMemoryUsage]
    split_ifs <;> simp [logText]

theorem cpuSection_logged (L : Lib) (s : Sample) :
    fileOf (cpuSection L true s) = (termOf (cpuSection L true s)).map logText := by
  cases h : s.cpuPercent with
  | error e => simp [cpuSection, logText, h]
  | ok ps =>
    cases ps with
    | nil => simp [cpuSection, logText, h]
    | cons p ps =>
      simp only [cpuSection, h, printCPUUsage]
      split_ifs <;> simp [logText]

theorem diskSection_logged (L : Lib) (s : Sample) :
    fileOf (diskSection L true s) = (termOf (diskSection L true s)).map logText := by
  cases h : s.partitions with
  | error e => simp [diskSection, printDiskUsage, logText, h]
  | ok ps =>
    simp only [diskSection, printDiskUsage, h, fileOf_append, termOf_append, fileOf_diskLoop,
      termOf_diskLoop, List.map_append, List.map_map]
    have hm : (successes ps).map (logText ∘ diskLine L) =
        (successes ps).map (fun u => (diskLine L u).text) :=
      List.map_congr_left (fun u _ => logText_diskLine L u)
    rw [hm]
    simp [logText]

theorem networkSection_logged (L : Lib) (s : Sample) :
    fileOf (networkSection L true s) = (termOf (networkSection L true s)).map logText := by
  cases h : s.counters with
  | error e => simp [networkSection, logText, h]
  | ok cs => cases cs <;> simp [networkSection, logText, h]

/-- With a log file open, the log file gets, for the sections of a refresh
cycle, exactly the terminal's writes in the terminal's order, each as its
text without colour; the one difference is the network header, which is
"=== Network I/O ===" on the terminal and "=== Network Usage ===" in the
file. -/
theorem sections_logged (L : Lib) (f : Flags) (s : Sample) :
    fileOf (cycleSections L true f s) = (termOf (cycleSections L true f s)).map logText := by
  simp only [cycleSections, fileOf_append, termOf_append, List.map_append]
  congr 1
  congr 1
  congr 1
  congr 1
  congr 1
  · split_ifs
    · exact systemInfoSection_logged s
    · rfl
  · split_ifs
    · exact uptimeSection_logged L s
    · rfl
  · split_ifs
    · exact memorySection_logged L s
    · rfl
  · split_ifs
    · exact cpuSection_logged L s
    · rfl
  · split_ifs
    · exact diskSection_logged L s
    · rfl
  · split_ifs
    · exact networkSection_logged L s
    · rfl

/-- When the log file (if any) opens and the invocation is not the manual
help form: the lone `--version` invocation writes the version line of the
early exit and exits with code 0; an invocation with the version flag and a
category flag or `--all` writes the version line through the logger and
returns, so the process ends with code 0.  Neither makes a pass of the
refresh loop. -/
theorem version_flag_accepted (L : Lib) (E : Env) (osArgs : List String) (f : Flags)
    (fuel : ℕ) (hhelp : isHelpInvocation osArgs = false)
    (hlog : f.logPath = "" ∨ ∃ u, E.openFile f.logPath = Except.ok u) :
    (isVersionInvocation osArgs = true →
      main L E osArgs f fuel = ⟨fmtPrintln "🧪 SysPeek Version: 1.0.0", Status.exited 0, 0⟩) ∧
    (isVersionInvocation osArgs = false → f.showVersion = true → f.noneSelected = false →
      main L E osArgs f fuel =
        ⟨logOutput (decide (f.logPath ≠ "")) "SysPeek version 1.0.0\n", Status.returned, 0⟩ ∧
      (main L E osArgs f fuel).exitCode = some 0) := by
  have hlogged : ∀ lg : Bool,
      (isVersionInvocation osArgs = true →
        mainLogged L E lg osArgs f fuel =
          ⟨fmtPrintln "🧪 SysPeek Version: 1.0.0", Status.exited 0, 0⟩) ∧
      (isVersionInvocation osArgs = false → f.showVersion = true → f.noneSelected = false →
        mainLogged L E lg osArgs f fuel =
          ⟨logOutput lg "SysPeek version 1.0.0\n", Status.returned, 0⟩) := by
    intro lg
    constructor
    · intro h
      have hs : "🧪 SysPeek Version: " ++ version = "🧪 SysPeek Version: 1.0.0" := by decide
      simp [mainLogged, h, hs]
    · intro h hv hsel
      have hs : "SysPeek version " ++ version ++ "\n" = "SysPeek version 1.0.0\n" := by decide
      have h3 : (!f.showCPU && !f.showMem && !f.showNet && !f.showDisk && !f.showAll) = false := by
        simpa [Flags.noneSelected] using hsel
      have h2 : (decide (f.refresh > 0) && !f.showCPU && !f.showMem && !f.showNet &&
          !f.showDisk && !f.showAll) = false := by
        obtain ⟨cpu, mem, net, all, refresh, ver, log, disk⟩ := f
        cases cpu <;> cases mem <;> cases net <;> cases all <;> cases disk <;>
          simp [Flags.noneSelected] at hsel ⊢
      simp only [mainLogged, mainValidated, h, h2, h3, hv, hs]
      simp
  have hm : main L E osArgs f fuel = mainLogged L E (decide (f.logPath ≠ "")) osArgs f fuel := by
    by_cases h2 : f.logPath = ""
    · simp [main, hhelp, h2]
    · rcases hlog with hlog | ⟨u, hopen⟩
      · exact absurd hlog h2
      · simp [main, hhelp, h2, hopen]
  rw [hm]
  refine ⟨(hlogged _).1, fun h hv hsel => ?_⟩
  have := (hlogged (decide (f.logPath ≠ ""))).2 h hv hsel
  rw [this]
  exact ⟨rfl, rfl⟩

theorem version_flag_accepted_witness :
    main exampleLib exampleEnv ["syspeek", "--version"] versionOnly 1 =
      ⟨[Ev.term none "🧪 SysPeek Version: 1.0.0\n"], Status.exited 0, 0⟩ ∧
    main exampleLib exampleEnv ["syspeek", "--cpu", "--version"] cpuVersion 1 =
      ⟨[Ev.term none "SysPeek version 1.0.0\n"], Status.returned, 0⟩ := by
  have h1 := (version_flag_accepted exampleLib exampleEnv ["syspeek", "--version"] versionOnly 1
    (by decide) (Or.inl rfl)).1 (by decide)
  have h2 := ((version_flag_accepted exampleLib exampleEnv ["syspeek", "--cpu", "--version"]
    cpuVersion 1 (by decide) (Or.inl rfl)).2 (by decide) rfl rfl).1
  exact ⟨h1, h2⟩

end SysPeek
